import Mathlib

/-!
# Verification of the PRD fire-case PSV sizing core

A shallow embedding of the numerical core of the PRD fire-case sizing
program, together with theorems checking its specification.

Conventions of the embedding:
* Python floats are modelled as real numbers (`ℝ`); functions whose
  interesting arithmetic is exact decimal arithmetic (`evaporation_rate`,
  the orifice table scan) are modelled over `ℚ` so they stay executable.
* A Python function that can `raise` is modelled as an `Except` value whose
  error constructor carries the data named by the exception message.
* Loops performing fixed-step quadrature become `Finset.range` sums, and the
  fixed-iteration bisection becomes structural recursion on the step count.
-/

namespace PRD

/-! ## flow/evaporation.py -/

/-- Errors raised by `evaporation_rate` (`flow/evaporation.py`). -/
inductive EvapError where
  | negativeQ : ℚ → EvapError
  | nonPositiveHfg : ℚ → EvapError
  deriving DecidableEq

/-- Model of `evaporation_rate` from `flow/evaporation.py`: evaporation rate (kg/s) from
heat load (W) and enthalpy of vaporization (J/kg).  The source validates the
heat load first, short-circuits `Q == 0` to `0.0`, and only then validates the
enthalpy of vaporization. -/
def evaporation_rate (Q_dot_W h_fg_J_per_kg : ℚ) : Except EvapError ℚ :=
  if Q_dot_W < 0 then .error (.negativeQ Q_dot_W)
  else if Q_dot_W = 0 then .ok 0
  else if h_fg_J_per_kg ≤ 0 then .error (.nonPositiveHfg h_fg_J_per_kg)
  else .ok (Q_dot_W / h_fg_J_per_kg)

/-- Model of `evaporation_rate_kg_per_hr` from `flow/evaporation.py`. -/
def evaporation_rate_kg_per_hr (Q_dot_W h_fg_J_per_kg : ℚ) : Except EvapError ℚ :=
  (evaporation_rate Q_dot_W h_fg_J_per_kg).map (· * 3600)

/-! ## sizing/orifice.py -/

/-- The API orifice table of `sizing/orifice.py` (letter, area in in²), in the
source's (ascending-area) order. -/
def API_ORIFICES : List (String × ℚ) :=
  [("D", 0.110), ("E", 0.196), ("F", 0.307), ("G", 0.503), ("H", 0.785),
   ("J", 1.287), ("K", 1.838), ("L", 2.853), ("M", 3.600), ("N", 4.454),
   ("P", 6.380), ("Q", 11.050), ("R", 16.000), ("T", 26.000)]

/-- Model of the `API_INLET_SIZES` table of `sizing/orifice.py`. -/
def API_INLET_SIZES : List (String × ℚ) :=
  [("D", 1.0), ("E", 1.0), ("F", 1.5), ("G", 1.5), ("H", 2.0), ("J", 3.0),
   ("K", 3.0), ("L", 4.0), ("M", 4.0), ("N", 4.0), ("P", 6.0), ("Q", 6.0),
   ("R", 8.0), ("T", 8.0)]

/-- Model of `MAX_ORIFICE_AREA = max(API_ORIFICES.values())`. -/
def MAX_ORIFICE_AREA : ℚ := (API_ORIFICES.map Prod.snd).foldl max 0

/-- Model of `get_orifice_diameter` from `sizing/orifice.py`. -/
noncomputable def get_orifice_diameter (area_in2 : ℚ) : ℝ :=
  2 * Real.sqrt ((area_in2 : ℝ) / Real.pi)

/-- The dict returned by `select_orifice`. -/
structure OrificeResult where
  letter : String
  area_in2 : ℚ
  diameter_in : ℝ
  inlet_size_in : ℚ

/-- Errors raised by `select_orifice`; `capacity l a` carries the maximum
available letter and area named by the "no standard API orifice" message. -/
inductive OrificeError where
  | negativeArea : ℚ → OrificeError
  | capacity : String → ℚ → OrificeError

/-- The `for letter, area in sorted(...)` scan of `select_orifice`: first table
entry whose area meets the requirement.  (Sorting the table by area leaves the
source order unchanged; see `API_ORIFICES_sorted` below.) -/
def findFirstOrifice (A : ℚ) : List (String × ℚ) → Option (String × ℚ)
  | [] => none
  | e :: rest => if A ≤ e.2 then some e else findFirstOrifice A rest

/-- Lookup of `API_INLET_SIZES[letter]`. -/
def inlet_size (letter : String) : ℚ := (API_INLET_SIZES.lookup letter).getD 0

/-- Model of `select_orifice` from `sizing/orifice.py`. -/
noncomputable def select_orifice (A_required_in2 : ℚ) : Except OrificeError OrificeResult :=
  if A_required_in2 < 0 then .error (.negativeArea A_required_in2)
  else if A_required_in2 = 0 then
    .ok ⟨"D", 0.110, get_orifice_diameter 0.110, inlet_size ("D")⟩
  else
    match findFirstOrifice A_required_in2 API_ORIFICES with
    | some e => .ok ⟨e.1, e.2, get_orifice_diameter e.2, inlet_size e.1⟩
    | none => .error (.capacity ("T") MAX_ORIFICE_AREA)

/-! ## fire/api2000.py -/

/-- Errors raised by `heat_load_api2000`; `unexpected` is the terminal
"Unexpected API2000 input combination" raise. -/
inductive Api2000Error where
  | negativeArea : ℝ → Api2000Error
  | unexpected : ℝ → ℝ → Api2000Error

/-- Model of `heat_load_api2000` from `fire/api2000.py`: API 2000 fire heat load (W)
from wetted area (m²) and design pressure (barg), with the API 520 flat-flux
fallback above 1.034 barg. -/
noncomputable def heat_load_api2000 (A_wetted_m2 P_design_barg : ℝ) : Except Api2000Error ℝ :=
  if A_wetted_m2 < 0 then .error (.negativeArea A_wetted_m2)
  else if A_wetted_m2 = 0 then .ok 0
  else if P_design_barg > 1.034 then .ok (10800.0 * A_wetted_m2)
  else if A_wetted_m2 < 18.6 then .ok (63150 * A_wetted_m2)
  else if 18.6 ≤ A_wetted_m2 ∧ A_wetted_m2 < 93 then
    .ok (224200 * A_wetted_m2 ^ (0.566 : ℝ))
  else if 93 ≤ A_wetted_m2 ∧ A_wetted_m2 < 260 then
    .ok (630400 * A_wetted_m2 ^ (0.338 : ℝ))
  else if 260 ≤ A_wetted_m2 ∧ 0.07 ≤ P_design_barg then
    .ok (43200 * A_wetted_m2 ^ (0.82 : ℝ))
  else if 260 ≤ A_wetted_m2 ∧ P_design_barg < 0.07 then .ok 4129700.0
  else .error (.unexpected A_wetted_m2 P_design_barg)

/-! ## flow/pressures.py and sizing/prd.py -/

/-- Errors raised by the pressure helpers of `flow/pressures.py`. -/
inductive PressureError where
  | nonPositive : String → ℝ → PressureError
  | negative : String → ℝ → PressureError
  | kNotGreaterThanOne : ℝ → PressureError

/-- Model of `critical_downstream_pressure` from `flow/pressures.py`:
`ratio = (2/(k+1))**(k/(k-1)); return ratio * P1`. -/
noncomputable def critical_downstream_pressure (P1_psia k : ℝ) : Except PressureError ℝ :=
  if P1_psia ≤ 0 then .error (.nonPositive ("Relieving pressure (P1_psia)") P1_psia)
  else if k ≤ 1.0 then .error (.kNotGreaterThanOne k)
  else .ok ((2.0 / (k + 1.0)) ^ (k / (k - 1.0)) * P1_psia)

/-- Model of `downstream_pressure` from `flow/pressures.py`. -/
noncomputable def downstream_pressure (P_back_psig atm_psia : ℝ) : Except PressureError ℝ :=
  if P_back_psig < 0 then .error (.negative ("Backpressure (psig)") P_back_psig)
  else if atm_psia ≤ 0 then .error (.nonPositive ("Atmospheric pressure (psia)") atm_psia)
  else .ok (P_back_psig + atm_psia)

/-- Model of `is_critical` from `flow/pressures.py`. -/
noncomputable def is_critical (P1_psia P_back_psig atm_psia k : ℝ) :
    Except PressureError Bool := do
  let P_crit ← critical_downstream_pressure P1_psia k
  let P_down ← downstream_pressure P_back_psig atm_psia
  pure (decide (P_crit > P_down))

/-- Model of `is_critical_flow` from `sizing/prd.py` (same body as `is_critical`;
validation happens in the called functions). -/
noncomputable def is_critical_flow (P1_psia P_back_psig atm_psia k : ℝ) :
    Except PressureError Bool := do
  let P_crit ← critical_downstream_pressure P1_psia k
  let P_down ← downstream_pressure P_back_psig atm_psia
  pure (decide (P_crit > P_down))

/-! ## geometry/heads.py -/

/-- The common interface of the three head classes of `geometry/heads.py`;
`hTop` is `h3` for the torispherical heads and `h2` for the hemispherical one
(matching the `getattr(head, "h3", head.h2)` idiom of `geometry/vessel.py`). -/
structure Head where
  radius : ℝ
  h1 : ℝ
  hTop : ℝ
  radius_at_height : ℝ → ℝ

/-- Model of `area_at_height`: `π · radius_at_height(h)²` (identical in all three head
classes). -/
noncomputable def Head.area_at_height (H : Head) (h : ℝ) : ℝ :=
  Real.pi * H.radius_at_height h ^ 2

/-- Model of `volume_up_to`: left-endpoint fixed-step quadrature of `area_at_height`
from `h1` to `h` (identical in all three head classes; default 500 steps). -/
noncomputable def Head.volume_up_to (H : Head) (h : ℝ) (steps : ℕ) : ℝ :=
  let dh := (h - H.h1) / steps
  ∑ i in Finset.range steps, H.area_at_height (H.h1 + i * dh) * dh

/-- Model of `max_head_volume`: `volume_up_to` at the top breakpoint. -/
noncomputable def Head.max_head_volume (H : Head) : ℝ :=
  H.volume_up_to H.hTop 500

/-- The `ASMEFDHead` class constructor (`geometry/heads.py`): ASME F&D
proportions (crown ratio 1.00, knuckle ratio 0.06), external circle centres,
internal radii by thin-wall thinning. -/
noncomputable def ASMEFDHead (diameter thickness : ℝ) : Head :=
  let Rc_ext := 1.00 * diameter
  let Rk_ext := 0.06 * diameter
  let R_ext := diameter / 2
  let a_ext := Rc_ext - Rk_ext
  let b_ext := R_ext - Rk_ext
  let rp2_ext := (diameter - 2 * Rk_ext) / 2
  let hp2_ext := Rc_ext - Real.sqrt (a_ext ^ 2 - b_ext ^ 2)
  let crown_radius := Rc_ext - thickness
  let knuckle_radius := Rk_ext - thickness
  let radius := R_ext - thickness
  let c_height_offset := Rc_ext
  let c_radius_offset := (0 : ℝ)
  let k_height_offset := hp2_ext
  let k_radius_offset := rp2_ext
  let alpha_ext := Real.arcsin (rp2_ext / (Rc_ext - Rk_ext))
  let h2 := Rc_ext - Real.cos alpha_ext * Rc_ext
  let h3 := k_height_offset
  { radius := radius
    h1 := 0
    hTop := h3
    radius_at_height := fun h =>
      if h ≤ h2 then
        Real.sqrt (max (crown_radius ^ 2 - (h - c_height_offset) ^ 2) 0) + c_radius_offset
      else if h ≤ h3 then
        Real.sqrt (max (knuckle_radius ^ 2 - (h - k_height_offset) ^ 2) 0) + k_radius_offset
      else radius }

/-- The `Elliptical2to1Head` class constructor (`geometry/heads.py`): ASME 2:1
ellipsoidal proportions (crown ratio 0.90, knuckle ratio 0.17); otherwise the
same construction as `ASMEFDHead`. -/
noncomputable def Elliptical2to1Head (diameter thickness : ℝ) : Head :=
  let Rc_ext := 0.90 * diameter
  let Rk_ext := 0.17 * diameter
  let R_ext := diameter / 2
  let a_ext := Rc_ext - Rk_ext
  let b_ext := R_ext - Rk_ext
  let rp2_ext := (diameter - 2 * Rk_ext) / 2
  let hp2_ext := Rc_ext - Real.sqrt (a_ext ^ 2 - b_ext ^ 2)
  let crown_radius := Rc_ext - thickness
  let knuckle_radius := Rk_ext - thickness
  let radius := R_ext - thickness
  let c_height_offset := Rc_ext
  let c_radius_offset := (0 : ℝ)
  let k_height_offset := hp2_ext
  let k_radius_offset := rp2_ext
  let alpha_ext := Real.arcsin (rp2_ext / (Rc_ext - Rk_ext))
  let h2 := Rc_ext - Real.cos alpha_ext * Rc_ext
  let h3 := k_height_offset
  { radius := radius
    h1 := 0
    hTop := h3
    radius_at_height := fun h =>
      if h ≤ h2 then
        Real.sqrt (max (crown_radius ^ 2 - (h - c_height_offset) ^ 2) 0) + c_radius_offset
      else if h ≤ h3 then
        Real.sqrt (max (knuckle_radius ^ 2 - (h - k_height_offset) ^ 2) 0) + k_radius_offset
      else radius }

/-- The `HemisphericalHead` class constructor (`geometry/heads.py`): a single
internal sphere arc of radius `D/2 - t`. -/
noncomputable def HemisphericalHead (diameter thickness : ℝ) : Head :=
  let radius := diameter / 2 - thickness
  let head_depth := radius
  let h2 := head_depth
  { radius := radius
    h1 := 0
    hTop := h2
    radius_at_height := fun h =>
      if h ≤ h2 then Real.sqrt (max (radius ^ 2 - (radius - h) ^ 2) 0) else radius }

/-! ## geometry/vessel.py -/

/-- Errors raised by the vessel functions of `geometry/vessel.py`;
`capacityExceeded fill vmax` carries both volumes stated by the
"Volume ... exceeds vessel capacity ..." message. -/
inductive VesselError where
  | badOrientation : String → VesselError
  | badHeadType : String → VesselError
  | nonPositive : String → ℝ → VesselError
  | negative : String → ℝ → VesselError
  | badSteps : ℕ → VesselError
  | thicknessNotLessThanRadius : ℝ → ℝ → VesselError
  | capacityExceeded : ℝ → ℝ → VesselError

/-- The dict returned by `wetted_area_from_fill_volume`. -/
structure FillVolumeResult where
  liquid_height_m : ℝ
  liquid_height_exposed_m : ℝ
  wetted_area_m2 : ℝ

/-- Model of `_build_head` from `geometry/vessel.py`: validation and dispatch on the
head-type string. -/
noncomputable def build_head (head_type : String) (OD_m thickness_mm : ℝ) :
    Except VesselError Head :=
  if OD_m ≤ 0 then .error (.nonPositive ("Outer diameter (OD_m)") OD_m)
  else if thickness_mm < 0 then .error (.negative ("Wall thickness (thickness_mm)") thickness_mm)
  else if OD_m / 2 ≤ thickness_mm / 1000 then
    .error (.thicknessNotLessThanRadius thickness_mm OD_m)
  else if head_type = "ASME_FD" then .ok (ASMEFDHead OD_m (thickness_mm / 1000))
  else if head_type = "Ellipsoidal" then .ok (Elliptical2to1Head OD_m (thickness_mm / 1000))
  else if head_type = "Hemispherical" then .ok (HemisphericalHead OD_m (thickness_mm / 1000))
  else .error (.badHeadType head_type)

/-- The `for _ in range(steps)` bisection loop of `solve_height_in_head`. -/
noncomputable def bisect_height (head : Head) (V_target : ℝ) : ℕ → ℝ × ℝ → ℝ × ℝ
  | 0, lh => lh
  | n + 1, lh =>
      let mid := 0.5 * (lh.1 + lh.2)
      if head.volume_up_to mid 500 < V_target then bisect_height head V_target n (mid, lh.2)
      else bisect_height head V_target n (lh.1, mid)

/-- Model of `solve_height_in_head` from `geometry/vessel.py`: 40-step bisection of
`volume_up_to` on `[h1, hTop]`. -/
noncomputable def solve_height_in_head (V_target : ℝ) (head : Head) (steps : ℕ) : ℝ :=
  let lh := bisect_height head V_target steps (head.h1, head.hTop)
  0.5 * (lh.1 + lh.2)

/-- Model of `liquid_height_from_volume` from `geometry/vessel.py`. -/
noncomputable def liquid_height_from_volume (V_m3 : ℝ) (head : Head) (shell_height_m : ℝ) : ℝ :=
  let V_head := head.max_head_volume
  let A_cyl := Real.pi * head.radius ^ 2
  let H_head := head.hTop
  let H_shell := shell_height_m
  if V_m3 ≤ V_head then solve_height_in_head V_m3 head 40
  else
    let V_rem := V_m3 - V_head
    if V_rem ≤ A_cyl * H_shell then H_head + V_rem / A_cyl
    else H_head + H_shell + solve_height_in_head (V_rem - A_cyl * H_shell) head 40

/-- Model of `head_wetted_area_up_to` from `geometry/vessel.py`: surface-of-revolution
quadrature with forward finite difference (offset `1e-5`). -/
noncomputable def head_wetted_area_up_to (h : ℝ) (head : Head) (steps : ℕ) : ℝ :=
  let h_low := head.h1
  let h_high := min h head.hTop
  if h ≤ h_low then 0
  else
    let dh := (h_high - h_low) / steps
    ∑ i in Finset.range steps,
      (let hi := h_low + i * dh
       let r := head.radius_at_height hi
       let h_forward := min (hi + 1e-5) h_high
       let r_forward := head.radius_at_height h_forward
       let dr_dh := if h_forward ≠ hi then (r_forward - r) / (h_forward - hi) else 0
       2 * Real.pi * r * Real.sqrt (1 + dr_dh ^ 2) * dh)

/-- Model of `wetted_area_up_to_height` from `geometry/vessel.py`: negative heights
return `0.0` before the shell-height validation; then the three cases
(bottom head / cylinder / top head). -/
noncomputable def wetted_area_up_to_height (H : ℝ) (head : Head) (shell_height : ℝ)
    (steps : ℕ) : Except VesselError ℝ :=
  if H < 0 then .ok 0
  else if shell_height < 0 then .error (.negative ("shell_height") shell_height)
  else
    let R := head.radius
    let H_head := head.hTop
    let H_shell := shell_height
    if H ≤ H_head then .ok (head_wetted_area_up_to H head steps)
    else if H ≤ H_head + H_shell then
      .ok (head_wetted_area_up_to H_head head steps + 2 * Real.pi * R * (H - H_head))
    else
      .ok (head_wetted_area_up_to H_head head steps + 2 * Real.pi * R * H_shell +
        head_wetted_area_up_to (H - (H_head + H_shell)) head steps)

/-- Model of `wetted_area_from_fill_volume` from `geometry/vessel.py`: validations,
head construction, capacity check, liquid height from fill volume, fire-height
limited exposed height, wetted area. -/
noncomputable def wetted_area_from_fill_volume (orientation head_type : String)
    (L_tangent_m OD_m thickness_mm bottom_height_m fire_height_m fill_volume_m3 : ℝ)
    (steps : ℕ) : Except VesselError FillVolumeResult :=
  if orientation ≠ "Vertical" then .error (.badOrientation orientation)
  else if head_type ∉ (["ASME_FD", "Ellipsoidal", "Hemispherical"] : List String) then
    .error (.badHeadType head_type)
  else if OD_m ≤ 0 then .error (.nonPositive ("Error with Outer Diameter input") OD_m)
  else if thickness_mm < 0 then .error (.negative ("Error with Shell Thickness input") thickness_mm)
  else if L_tangent_m < 0 then .error (.negative ("Error with Shell Height input") L_tangent_m)
  else if bottom_height_m < 0 then
    .error (.negative ("Error with Surface to Vessel Bottom Height input") bottom_height_m)
  else if fire_height_m < 0 then .error (.negative ("Error with Fire Height input") fire_height_m)
  else if fill_volume_m3 < 0 then
    .error (.negative ("Error with Normal Fill Volume input") fill_volume_m3)
  else if steps < 10 then .error (.badSteps steps)
  else if OD_m / 2 ≤ thickness_mm / 1000 then
    .error (.thicknessNotLessThanRadius thickness_mm OD_m)
  else
    (build_head head_type OD_m thickness_mm).bind fun head =>
      let V_head := head.max_head_volume
      let R := head.radius
      let A_cyl := Real.pi * R ^ 2
      let V_max := V_head * 2 + A_cyl * L_tangent_m
      if fill_volume_m3 > V_max then .error (.capacityExceeded fill_volume_m3 V_max)
      else
        let liquid_height_m := liquid_height_from_volume fill_volume_m3 head L_tangent_m
        let fire_limit := fire_height_m - bottom_height_m
        if fire_limit ≤ 0 then .ok ⟨liquid_height_m, 0, 0⟩
        else
          let liquid_height_exposed_m := min liquid_height_m fire_limit
          (wetted_area_up_to_height liquid_height_exposed_m head L_tangent_m steps).map
            fun w => ⟨liquid_height_m, liquid_height_exposed_m, w⟩

/-! ## Helper lemmas -/

/-- For every non-negative area the branch chain of `heat_load_api2000`
produces a value: the five table rows plus the high-pressure fallback cover
the whole domain. -/
lemma heat_load_api2000_total (A P : ℝ) (hA : 0 ≤ A) :
    ∃ v, heat_load_api2000 A P = Except.ok v := by
  unfold heat_load_api2000
  split_ifs with g1 g2 g3 g4 g5 g6 g7 g8
  · exact absurd g1 (not_lt.2 hA)
  · exact ⟨_, rfl⟩
  · exact ⟨_, rfl⟩
  · exact ⟨_, rfl⟩
  · exact ⟨_, rfl⟩
  · exact ⟨_, rfl⟩
  · exact ⟨_, rfl⟩
  · exact ⟨_, rfl⟩
  · exfalso
    push_neg at g4 g5 g6 g7 g8
    have h93 : (93 : ℝ) ≤ A := g5 g4
    have h260 : (260 : ℝ) ≤ A := g6 h93
    linarith [g7 h260, g8 h260]

/-- The orifice table is sorted by ascending area, so the source's
`sorted(API_ORIFICES.items(), key=...)` leaves it unchanged. -/
lemma API_ORIFICES_sorted : API_ORIFICES.Pairwise (fun a b => a.2 ≤ b.2) := by
  norm_num [API_ORIFICES, List.pairwise_cons]

/-- A hit of the first-match scan is a table entry meeting the requirement. -/
lemma findFirstOrifice_mem {A : ℚ} {l : List (String × ℚ)} {r : String × ℚ}
    (h : findFirstOrifice A l = some r) : r ∈ l ∧ A ≤ r.2 := by
  induction l with
  | nil => simp [findFirstOrifice] at h
  | cons e rest ih =>
    rw [findFirstOrifice] at h
    by_cases hc : A ≤ e.2
    · rw [if_pos hc] at h
      injection h with h
      subst h
      exact ⟨List.mem_cons_self e rest, hc⟩
    · rw [if_neg hc] at h
      obtain ⟨hm, hA⟩ := ih h
      exact ⟨List.mem_cons_of_mem _ hm, hA⟩

/-- On a table sorted by area, every entry with a strictly smaller area than
the first match misses the requirement. -/
lemma findFirstOrifice_min {A : ℚ} {l : List (String × ℚ)} {r : String × ℚ}
    (hs : l.Pairwise (fun a b => a.2 ≤ b.2)) (h : findFirstOrifice A l = some r) :
    ∀ e ∈ l, e.2 < r.2 → e.2 < A := by
  induction l with
  | nil => simp [findFirstOrifice] at h
  | cons x rest ih =>
    rw [findFirstOrifice] at h
    rcases List.pairwise_cons.1 hs with ⟨hx, hrest⟩
    by_cases hc : A ≤ x.2
    · rw [if_pos hc] at h
      injection h with h
      subst h
      intro e he hlt
      rcases List.mem_cons.1 he with rfl | hm
      · exact absurd hlt (lt_irrefl _)
      · exact absurd hlt (not_lt.2 (hx e hm))
    · rw [if_neg hc] at h
      intro e he hlt
      rcases List.mem_cons.1 he with rfl | hm
      · exact not_le.1 hc
      · exact ih hrest h e hm hlt

/-- The scan succeeds as soon as some entry meets the requirement. -/
lemma findFirstOrifice_isSome {A : ℚ} {l : List (String × ℚ)} (e : String × ℚ)
    (he : e ∈ l) (hA : A ≤ e.2) : ∃ r, findFirstOrifice A l = some r := by
  induction l with
  | nil => cases he
  | cons x rest ih =>
    rw [findFirstOrifice]
    by_cases hc : A ≤ x.2
    · exact ⟨x, if_pos hc⟩
    · rw [if_neg hc]
      rcases List.mem_cons.1 he with rfl | hm
      · exact absurd hA hc
      · exact ih hm

/-- The scan fails when every entry misses the requirement. -/
lemma findFirstOrifice_none {A : ℚ} {l : List (String × ℚ)}
    (h : ∀ e ∈ l, e.2 < A) : findFirstOrifice A l = none := by
  induction l with
  | nil => rfl
  | cons x rest ih =>
    rw [findFirstOrifice, if_neg (not_le.2 (h x (List.mem_cons_self x rest)))]
    exact ih fun e he => h e (List.mem_cons_of_mem _ he)

/-- Numeric bounds for the API 520 critical pressure ratio at `k = 1.4`:
`(2/2.4)^3.5 · 100` lies strictly between 52.8 and 52.9. -/
lemma critical_ratio_bounds :
    (52.8 : ℝ) < ((2.0 : ℝ) / (1.4 + 1.0)) ^ ((1.4 : ℝ) / (1.4 - 1.0)) * 100 ∧
    ((2.0 : ℝ) / (1.4 + 1.0)) ^ ((1.4 : ℝ) / (1.4 - 1.0)) * 100 < 52.9 := by
  have hbase : ((2.0 : ℝ) / (1.4 + 1.0)) = 5 / 6 := by norm_num
  have hexp : ((1.4 : ℝ) / (1.4 - 1.0)) = 7 / 2 := by norm_num
  rw [hbase, hexp]
  have h1 : ((5 / 6 : ℝ)) ^ ((7 : ℝ) / 2) = Real.sqrt ((5 / 6 : ℝ) ^ (7 : ℕ)) := by
    rw [show ((7 : ℝ) / 2) = (7 : ℝ) * (1 / 2) by ring,
      Real.rpow_mul (by norm_num : (0 : ℝ) ≤ 5 / 6),
      show ((7 : ℝ)) = ((7 : ℕ) : ℝ) by norm_num,
      Real.rpow_natCast, Real.sqrt_eq_rpow]
  rw [h1, show ((5 / 6 : ℝ)) ^ (7 : ℕ) = 78125 / 279936 by norm_num]
  have lo : (0.528 : ℝ) < Real.sqrt (78125 / 279936) :=
    (Real.lt_sqrt (by norm_num)).2 (by norm_num)
  have hi : Real.sqrt (78125 / 279936) < 0.529 :=
    (Real.sqrt_lt' (by norm_num)).2 (by norm_num)
  constructor <;> nlinarith [lo, hi]

/-- The quadrature volume is non-negative above `h1`. -/
lemma volume_up_to_nonneg (H : Head) (h : ℝ) (steps : ℕ) (hh : H.h1 ≤ h) :
    0 ≤ H.volume_up_to h steps := by
  unfold Head.volume_up_to Head.area_at_height
  apply Finset.sum_nonneg
  intro i _
  have hdh : 0 ≤ (h - H.h1) / steps := div_nonneg (by linarith) (Nat.cast_nonneg steps)
  exact mul_nonneg (mul_nonneg Real.pi_pos.le (sq_nonneg _)) hdh

/-- At `h = h1` the quadrature step is zero, so the volume is exactly `0`. -/
lemma volume_up_to_h1 (H : Head) (steps : ℕ) : H.volume_up_to H.h1 steps = 0 := by
  simp [Head.volume_up_to]

/-- The bisection loop stays inside its starting interval. -/
lemma bisect_height_mem (head : Head) (V : ℝ) :
    ∀ (n : ℕ) (lh : ℝ × ℝ), lh.1 ≤ lh.2 →
      lh.1 ≤ (bisect_height head V n lh).1 ∧
      (bisect_height head V n lh).1 ≤ (bisect_height head V n lh).2 ∧
      (bisect_height head V n lh).2 ≤ lh.2 := by
  intro n
  induction n with
  | zero => exact fun lh hle => ⟨le_rfl, hle, le_rfl⟩
  | succ n ih =>
    intro lh hle
    have hmid1 : lh.1 ≤ 0.5 * (lh.1 + lh.2) := by norm_num; linarith
    have hmid2 : 0.5 * (lh.1 + lh.2) ≤ lh.2 := by norm_num; linarith
    rw [bisect_height]
    by_cases hc : head.volume_up_to (0.5 * (lh.1 + lh.2)) 500 < V
    · rw [if_pos hc]
      obtain ⟨a, b, c⟩ := ih (0.5 * (lh.1 + lh.2), lh.2) hmid2
      exact ⟨le_trans hmid1 a, b, c⟩
    · rw [if_neg hc]
      obtain ⟨a, b, c⟩ := ih (lh.1, 0.5 * (lh.1 + lh.2)) hmid1
      exact ⟨a, b, le_trans c hmid2⟩

/-- The bisection midpoint stays inside `[h1, hTop]`. -/
lemma solve_height_in_head_mem (V : ℝ) (head : Head) (steps : ℕ)
    (hle : head.h1 ≤ head.hTop) :
    head.h1 ≤ solve_height_in_head V head steps ∧
    solve_height_in_head V head steps ≤ head.hTop := by
  obtain ⟨a, b, c⟩ := bisect_height_mem head V steps (head.h1, head.hTop) hle
  unfold solve_height_in_head
  constructor
  · nlinarith [a, b, c]
  · nlinarith [a, b, c]

/-- The inverted liquid height is non-negative for a well-formed head. -/
lemma liquid_height_from_volume_nonneg (V : ℝ) (head : Head) (shell : ℝ)
    (h1 : head.h1 = 0) (htop : 0 ≤ head.hTop) (hr : 0 < head.radius)
    (hs : 0 ≤ shell) :
    0 ≤ liquid_height_from_volume V head shell := by
  have hle : head.h1 ≤ head.hTop := by rw [h1]; exact htop
  have hA : 0 < Real.pi * head.radius ^ 2 := by positivity
  simp only [liquid_height_from_volume]
  split_ifs with c1 c2
  · have hm := (solve_height_in_head_mem V head 40 hle).1
    rw [h1] at hm
    exact hm
  · have hnn : 0 ≤ (V - head.max_head_volume) / (Real.pi * head.radius ^ 2) :=
      div_nonneg (by linarith [not_le.1 c1]) hA.le
    linarith
  · have hm := (solve_height_in_head_mem
      (V - head.max_head_volume - Real.pi * head.radius ^ 2 * shell) head 40 hle).1
    rw [h1] at hm
    linarith

/-- Lemma: `wetted_area_up_to_height` never fails for a non-negative shell height. -/
lemma wetted_area_up_to_height_ok (H : ℝ) (head : Head) (shell : ℝ) (steps : ℕ)
    (hs : 0 ≤ shell) :
    ∃ w, wetted_area_up_to_height H head shell steps = .ok w := by
  simp only [wetted_area_up_to_height]
  split_ifs with c1 c2 c3 c4
  · exact ⟨0, rfl⟩
  · exact absurd hs (not_le.2 c2)
  · exact ⟨_, rfl⟩
  · exact ⟨_, rfl⟩
  · exact ⟨_, rfl⟩

/-- Structural facts about any head produced by `build_head`. -/
lemma build_head_facts {ht : String} {OD t_mm : ℝ} {head : Head}
    (hhead : build_head ht OD t_mm = .ok head) :
    head.h1 = 0 ∧ 0 ≤ head.hTop ∧ head.radius = OD / 2 - t_mm / 1000 := by
  unfold build_head at hhead
  split_ifs at hhead with c1 c2 c3 c4 c5 c6
  · -- ASME F&D
    simp only [Except.ok.injEq] at hhead
    subst hhead
    refine ⟨rfl, ?_, rfl⟩
    have hD : 0 < OD := not_le.1 c1
    have e : (ASMEFDHead OD (t_mm / 1000)).hTop =
        1.00 * OD - Real.sqrt ((1.00 * OD - 0.06 * OD) ^ 2 - (OD / 2 - 0.06 * OD) ^ 2) := rfl
    rw [e]
    have hs : Real.sqrt ((1.00 * OD - 0.06 * OD) ^ 2 - (OD / 2 - 0.06 * OD) ^ 2) ≤
        Real.sqrt ((1.00 * OD) ^ 2) := Real.sqrt_le_sqrt (by nlinarith)
    rw [Real.sqrt_sq (by linarith)] at hs
    linarith
  · -- Elliptical 2:1
    simp only [Except.ok.injEq] at hhead
    subst hhead
    refine ⟨rfl, ?_, rfl⟩
    have hD : 0 < OD := not_le.1 c1
    have e : (Elliptical2to1Head OD (t_mm / 1000)).hTop =
        0.90 * OD - Real.sqrt ((0.90 * OD - 0.17 * OD) ^ 2 - (OD / 2 - 0.17 * OD) ^ 2) := rfl
    rw [e]
    have hs : Real.sqrt ((0.90 * OD - 0.17 * OD) ^ 2 - (OD / 2 - 0.17 * OD) ^ 2) ≤
        Real.sqrt ((0.90 * OD) ^ 2) := Real.sqrt_le_sqrt (by nlinarith)
    rw [Real.sqrt_sq (by nlinarith)] at hs
    linarith
  · -- Hemispherical
    simp only [Except.ok.injEq] at hhead
    subst hhead
    have hR : 0 ≤ OD / 2 - t_mm / 1000 := by linarith [not_le.1 c3]
    exact ⟨rfl, hR, rfl⟩

/-- Full evaluation of `wetted_area_from_fill_volume` on valid inputs whose
fill volume is within capacity. -/
lemma wetted_area_from_fill_volume_eval (ht : String) (L OD t_mm bottom fire fill : ℝ)
    (steps : ℕ)
    (hmem : ht ∈ (["ASME_FD", "Ellipsoidal", "Hemispherical"] : List String))
    (hOD : 0 < OD) (htm : 0 ≤ t_mm) (hL : 0 ≤ L) (hb : 0 ≤ bottom) (hf : 0 ≤ fire)
    (hfill : 0 ≤ fill) (hsteps : 10 ≤ steps) (hthick : t_mm / 1000 < OD / 2)
    (head : Head) (hhead : build_head ht OD t_mm = .ok head)
    (hcap : fill ≤ head.max_head_volume * 2 + Real.pi * head.radius ^ 2 * L) :
    ∃ r, wetted_area_from_fill_volume ("Vertical") ht L OD t_mm bottom fire fill steps =
        .ok r ∧
      r.liquid_height_m = liquid_height_from_volume fill head L ∧
      r.liquid_height_exposed_m =
        min (liquid_height_from_volume fill head L) (max 0 (fire - bottom)) ∧
      (fire - bottom ≤ 0 → r.liquid_height_exposed_m = 0 ∧ r.wetted_area_m2 = 0) ∧
      (0 < fire - bottom →
        wetted_area_up_to_height r.liquid_height_exposed_m head L steps =
          .ok r.wetted_area_m2) := by
  obtain ⟨hh1, hhtop, hrad⟩ := build_head_facts hhead
  have hrpos : 0 < head.radius := by rw [hrad]; linarith
  have hliq : 0 ≤ liquid_height_from_volume fill head L :=
    liquid_height_from_volume_nonneg fill head L hh1 hhtop hrpos hL
  simp only [wetted_area_from_fill_volume]
  rw [if_neg (show ¬("Vertical" ≠ "Vertical") by simp),
    if_neg (not_not_intro hmem),
    if_neg (not_le.2 hOD), if_neg (not_lt.2 htm), if_neg (not_lt.2 hL),
    if_neg (not_lt.2 hb), if_neg (not_lt.2 hf), if_neg (not_lt.2 hfill),
    if_neg (not_lt.2 hsteps), if_neg (not_le.2 hthick), hhead]
  simp only [Except.bind]
  rw [if_neg (not_lt.2 hcap)]
  by_cases hfb : fire - bottom ≤ 0
  · rw [if_pos hfb]
    refine ⟨_, rfl, rfl, ?_, fun _ => ⟨rfl, rfl⟩, fun h0 => absurd h0 (not_lt.2 hfb)⟩
    show (0 : ℝ) = min (liquid_height_from_volume fill head L) (max 0 (fire - bottom))
    rw [max_eq_left hfb, min_eq_right hliq]
  · rw [if_neg hfb]
    obtain ⟨w, hw⟩ := wetted_area_up_to_height_ok
      (min (liquid_height_from_volume fill head L) (fire - bottom)) head L steps hL
    rw [hw]
    simp only [Except.map]
    refine ⟨_, rfl, rfl, ?_, fun h0 => absurd h0 hfb, fun _ => ?_⟩
    · show min (liquid_height_from_volume fill head L) (fire - bottom) =
        min (liquid_height_from_volume fill head L) (max 0 (fire - bottom))
      rw [max_eq_right (le_of_lt (not_le.1 hfb))]
    · exact hw

/-- The hemispherical profile never exceeds the internal sphere radius. -/
lemma HemisphericalHead_radius_le (D t x : ℝ) (h : 0 ≤ D / 2 - t) :
    (HemisphericalHead D t).radius_at_height x ≤ D / 2 - t := by
  show (if x ≤ D / 2 - t then
      Real.sqrt (max ((D / 2 - t) ^ 2 - (D / 2 - t - x) ^ 2) 0) else D / 2 - t) ≤
    D / 2 - t
  split_ifs with hc
  · have hle : max ((D / 2 - t) ^ 2 - (D / 2 - t - x) ^ 2) 0 ≤ (D / 2 - t) ^ 2 :=
      max_le (by nlinarith) (sq_nonneg _)
    calc Real.sqrt (max ((D / 2 - t) ^ 2 - (D / 2 - t - x) ^ 2) 0)
        ≤ Real.sqrt ((D / 2 - t) ^ 2) := Real.sqrt_le_sqrt hle
      _ = D / 2 - t := Real.sqrt_sq h
  · exact le_rfl

/-- The hemispherical profile is non-negative. -/
lemma HemisphericalHead_radius_nonneg (D t x : ℝ) (h : 0 ≤ D / 2 - t) :
    0 ≤ (HemisphericalHead D t).radius_at_height x := by
  show 0 ≤ if x ≤ D / 2 - t then
      Real.sqrt (max ((D / 2 - t) ^ 2 - (D / 2 - t - x) ^ 2) 0) else D / 2 - t
  split_ifs with hc
  · exact Real.sqrt_nonneg _
  · exact h

/-- A uniform radius bound gives a cylinder bound on the quadrature volume. -/
lemma volume_up_to_le_of_radius_le (H : Head) (h : ℝ) (steps : ℕ) (R : ℝ)
    (hh : H.h1 ≤ h) (hR : ∀ x, 0 ≤ H.radius_at_height x)
    (hRle : ∀ x, H.radius_at_height x ≤ R) :
    H.volume_up_to h steps ≤ Real.pi * R ^ 2 * (h - H.h1) := by
  have hdh : 0 ≤ (h - H.h1) / steps := div_nonneg (by linarith) (Nat.cast_nonneg _)
  have hsum : H.volume_up_to h steps ≤
      ∑ _i in Finset.range steps, Real.pi * R ^ 2 * ((h - H.h1) / steps) := by
    simp only [Head.volume_up_to, Head.area_at_height]
    refine Finset.sum_le_sum fun i _ => ?_
    exact mul_le_mul_of_nonneg_right
      (mul_le_mul_of_nonneg_left (pow_le_pow_left (hR _) (hRle _) 2) Real.pi_pos.le) hdh
  rw [Finset.sum_const, Finset.card_range, nsmul_eq_mul] at hsum
  rcases Nat.eq_zero_or_pos steps with hz | hpos
  · subst hz
    rw [Nat.cast_zero, zero_mul] at hsum
    have hnn : 0 ≤ Real.pi * R ^ 2 * (h - H.h1) :=
      mul_nonneg (mul_nonneg Real.pi_pos.le (sq_nonneg _)) (by linarith)
    linarith
  · have hne : (steps : ℝ) ≠ 0 := Nat.cast_ne_zero.2 hpos.ne'
    have heq : (steps : ℝ) * (Real.pi * R ^ 2 * ((h - H.h1) / steps)) =
        Real.pi * R ^ 2 * (h - H.h1) := by
      field_simp
    rw [heq] at hsum
    exact hsum

/-- A pointwise-monotone non-negative profile makes the left-endpoint
quadrature monotone in the upper integration limit. -/
lemma volume_up_to_mono_of_radius_mono (H : Head)
    (hmono : ∀ x y, x ≤ y → H.radius_at_height x ≤ H.radius_at_height y)
    (hnn : ∀ x, 0 ≤ H.radius_at_height x)
    (h h' : ℝ) (h0 : H.h1 ≤ h) (hle : h ≤ h') (steps : ℕ) :
    H.volume_up_to h steps ≤ H.volume_up_to h' steps := by
  rcases Nat.eq_zero_or_pos steps with rfl | hpos
  · simp [Head.volume_up_to]
  have hc : (0 : ℝ) < steps := Nat.cast_pos.2 hpos
  simp only [Head.volume_up_to, Head.area_at_height]
  refine Finset.sum_le_sum fun i _ => ?_
  have hdh : 0 ≤ (h - H.h1) / steps := div_nonneg (by linarith) hc.le
  have hdh' : (h - H.h1) / steps ≤ (h' - H.h1) / steps :=
    (div_le_div_right hc).2 (by linarith)
  have hx : H.h1 + i * ((h - H.h1) / steps) ≤ H.h1 + i * ((h' - H.h1) / steps) := by
    have hi : (0 : ℝ) ≤ i := Nat.cast_nonneg i
    nlinarith
  have hr := hmono _ _ hx
  have hr0 := hnn (H.h1 + i * ((h - H.h1) / steps))
  have h2 : H.radius_at_height (H.h1 + i * ((h - H.h1) / steps)) ^ 2 ≤
      H.radius_at_height (H.h1 + i * ((h' - H.h1) / steps)) ^ 2 :=
    pow_le_pow_left hr0 hr 2
  exact mul_le_mul (mul_le_mul_of_nonneg_left h2 Real.pi_pos.le) hdh' hdh
    (mul_nonneg Real.pi_pos.le (sq_nonneg _))

/-- The hemispherical profile is monotone non-decreasing. -/
lemma HemisphericalHead_radius_mono (D t : ℝ) (h : 0 ≤ D / 2 - t) :
    ∀ x y, x ≤ y →
      (HemisphericalHead D t).radius_at_height x ≤
        (HemisphericalHead D t).radius_at_height y := by
  intro x y hxy
  show (if x ≤ D / 2 - t then
      Real.sqrt (max ((D / 2 - t) ^ 2 - (D / 2 - t - x) ^ 2) 0) else D / 2 - t) ≤
    (if y ≤ D / 2 - t then
      Real.sqrt (max ((D / 2 - t) ^ 2 - (D / 2 - t - y) ^ 2) 0) else D / 2 - t)
  split_ifs with hx hy hy
  · refine Real.sqrt_le_sqrt (max_le_max ?_ le_rfl)
    nlinarith
  · calc Real.sqrt (max ((D / 2 - t) ^ 2 - (D / 2 - t - x) ^ 2) 0)
        ≤ Real.sqrt ((D / 2 - t) ^ 2) :=
          Real.sqrt_le_sqrt (max_le (by nlinarith) (sq_nonneg _))
      _ = D / 2 - t := Real.sqrt_sq h
  · exact absurd (le_trans hxy hy) hx
  · exact le_rfl

/-- The torispherical (crown + knuckle + straight) internal profile with zero
wall thickness: non-negativity.  `crown`, `knuckle` and `rad` are the branch
radii, constrained by the tangency equations of the construction. -/
lemma toris_profile_nonneg (Rc Rk crown knuckle rad b hp2 h2v x : ℝ)
    (hRk : 0 < Rk) (hb : 0 < b) (hrad : rad = Rk + b) :
    0 ≤ (if x ≤ h2v then Real.sqrt (max (crown ^ 2 - (x - Rc) ^ 2) 0) + 0
      else if x ≤ hp2 then Real.sqrt (max (knuckle ^ 2 - (x - hp2) ^ 2) 0) + b
      else rad) := by
  split_ifs with h1 h2
  · have := Real.sqrt_nonneg (max (crown ^ 2 - (x - Rc) ^ 2) 0)
    linarith
  · have := Real.sqrt_nonneg (max (knuckle ^ 2 - (x - hp2) ^ 2) 0)
    linarith
  · rw [hrad]
    linarith

set_option maxHeartbeats 1000000 in
/-- The torispherical internal profile with zero wall thickness is monotone
non-decreasing: the crown arc rises to the tangency height `h2v`, the knuckle
arc continues to `hp2`, and the profile then stays at the cylinder radius. -/
lemma toris_profile_mono (Rc Rk crown knuckle rad b hp2 h2v : ℝ)
    (hcrown : crown = Rc) (hknuckle : knuckle = Rk) (hrad : rad = Rk + b)
    (hRk : 0 < Rk) (hb : 0 < b) (hab : b ≤ Rc - Rk)
    (hh2 : h2v = Rc - Real.cos (Real.arcsin (b / (Rc - Rk))) * Rc)
    (hhp2 : hp2 = Rc - Real.sqrt ((Rc - Rk) ^ 2 - b ^ 2)) :
    ∀ x y : ℝ, x ≤ y →
      (if x ≤ h2v then Real.sqrt (max (crown ^ 2 - (x - Rc) ^ 2) 0) + 0
       else if x ≤ hp2 then Real.sqrt (max (knuckle ^ 2 - (x - hp2) ^ 2) 0) + b
       else rad) ≤
      (if y ≤ h2v then Real.sqrt (max (crown ^ 2 - (y - Rc) ^ 2) 0) + 0
       else if y ≤ hp2 then Real.sqrt (max (knuckle ^ 2 - (y - hp2) ^ 2) 0) + b
       else rad) := by
  intro x y hxy
  rw [hcrown, hknuckle, hrad]
  have ha : 0 < Rc - Rk := lt_of_lt_of_le hb hab
  have hRc : 0 < Rc := by linarith
  set s := b / (Rc - Rk) with hs
  have hs0 : 0 ≤ s := div_nonneg hb.le ha.le
  have hs1 : s ≤ 1 := (div_le_one ha).2 hab
  set c := Real.cos (Real.arcsin s) with hc
  have hc0 : 0 ≤ c := Real.cos_arcsin_nonneg _
  have hc1 : c ≤ 1 := Real.cos_le_one _
  have hsin : Real.sin (Real.arcsin s) = s := Real.sin_arcsin (by linarith) hs1
  have hsc : s ^ 2 + c ^ 2 = 1 := by
    have hpy := Real.sin_sq_add_cos_sq (Real.arcsin s)
    rw [hsin] at hpy
    exact hpy
  have hs2 : s ^ 2 = 1 - c ^ 2 := by linarith
  have hbsa : b = (Rc - Rk) * s := by
    rw [hs]
    field_simp
  have hb2 : b ^ 2 = (Rc - Rk) ^ 2 * s ^ 2 := by
    rw [hbsa]
    ring
  have hsqrtc : Real.sqrt ((Rc - Rk) ^ 2 - b ^ 2) = (Rc - Rk) * c := by
    have h1 : (Rc - Rk) ^ 2 - b ^ 2 = ((Rc - Rk) * c) ^ 2 := by
      rw [hb2, hs2]
      ring
    rw [h1, Real.sqrt_sq (mul_nonneg ha.le hc0)]
  have hph : hp2 - h2v = Rk * c := by
    rw [hhp2, hh2, hsqrtc]
    ring
  have hh2Rc : h2v ≤ Rc := by
    rw [hh2]
    have := mul_nonneg hc0 hRc.le
    linarith
  have hh2hp2 : h2v ≤ hp2 := by
    have := mul_nonneg hRk.le hc0
    linarith
  have hh2Rcm : (h2v - Rc) ^ 2 = (c * Rc) ^ 2 := by
    rw [hh2]
    ring
  have hcs : (Rc * s) ^ 2 = Rc ^ 2 - (c * Rc) ^ 2 := by
    rw [mul_pow, mul_pow, hs2]
    ring
  have hks : (Rk * s) ^ 2 = Rk ^ 2 - (Rk * c) ^ 2 := by
    rw [mul_pow, mul_pow, hs2]
    ring
  have crown_le : ∀ z, z ≤ h2v →
      Real.sqrt (max (Rc ^ 2 - (z - Rc) ^ 2) 0) ≤ Rc * s := by
    intro z hz
    have hprod : 0 ≤ (h2v - z) * ((Rc - z) + (Rc - h2v)) :=
      mul_nonneg (by linarith) (by linarith)
    have hid : (z - Rc) ^ 2 - (h2v - Rc) ^ 2 = (h2v - z) * ((Rc - z) + (Rc - h2v)) := by
      ring
    have h1 : (h2v - Rc) ^ 2 ≤ (z - Rc) ^ 2 := by linarith [hprod, hid]
    have h2 : Rc ^ 2 - (z - Rc) ^ 2 ≤ (Rc * s) ^ 2 := by
      rw [hcs]
      linarith [h1, hh2Rcm]
    have h3 : max (Rc ^ 2 - (z - Rc) ^ 2) 0 ≤ (Rc * s) ^ 2 := max_le h2 (sq_nonneg _)
    calc Real.sqrt (max (Rc ^ 2 - (z - Rc) ^ 2) 0) ≤ Real.sqrt ((Rc * s) ^ 2) :=
        Real.sqrt_le_sqrt h3
      _ = Rc * s := Real.sqrt_sq (mul_nonneg hRc.le hs0)
  have knuckle_ge : ∀ z, h2v ≤ z → z ≤ hp2 →
      Rk * s ≤ Real.sqrt (max (Rk ^ 2 - (z - hp2) ^ 2) 0) := by
    intro z hz1 hz2
    have hu1 : 0 ≤ Rk * c - (hp2 - z) := by linarith
    have hu2 : 0 ≤ Rk * c + (hp2 - z) := by
      have := mul_nonneg hRk.le hc0
      linarith
    have hprod : 0 ≤ (Rk * c - (hp2 - z)) * (Rk * c + (hp2 - z)) := mul_nonneg hu1 hu2
    have hid : (Rk * c) ^ 2 - (z - hp2) ^ 2 =
        (Rk * c - (hp2 - z)) * (Rk * c + (hp2 - z)) := by
      ring
    have h1 : (z - hp2) ^ 2 ≤ (Rk * c) ^ 2 := by linarith [hprod, hid]
    have h2 : (Rk * s) ^ 2 ≤ Rk ^ 2 - (z - hp2) ^ 2 := by
      rw [hks]
      linarith
    have h3 : (Rk * s) ^ 2 ≤ max (Rk ^ 2 - (z - hp2) ^ 2) 0 :=
      le_trans h2 (le_max_left _ _)
    calc Rk * s = Real.sqrt ((Rk * s) ^ 2) :=
        (Real.sqrt_sq (mul_nonneg hRk.le hs0)).symm
      _ ≤ Real.sqrt (max (Rk ^ 2 - (z - hp2) ^ 2) 0) := Real.sqrt_le_sqrt h3
  have knuckle_le : ∀ z, Real.sqrt (max (Rk ^ 2 - (z - hp2) ^ 2) 0) + b ≤ Rk + b := by
    intro z
    have h1 : max (Rk ^ 2 - (z - hp2) ^ 2) 0 ≤ Rk ^ 2 :=
      max_le (by linarith [sq_nonneg (z - hp2)]) (sq_nonneg _)
    have h2 : Real.sqrt (max (Rk ^ 2 - (z - hp2) ^ 2) 0) ≤ Rk := by
      calc Real.sqrt (max (Rk ^ 2 - (z - hp2) ^ 2) 0) ≤ Real.sqrt (Rk ^ 2) :=
          Real.sqrt_le_sqrt h1
        _ = Rk := Real.sqrt_sq hRk.le
    linarith
  have hjoin : Rc * s = Rk * s + b := by
    rw [hbsa]
    ring
  have hcrR : Rc * s ≤ Rk + b := by
    have h1 : Rk * s ≤ Rk * 1 := mul_le_mul_of_nonneg_left hs1 hRk.le
    linarith [hjoin]
  rcases le_or_lt x h2v with hx1 | hx1
  · rcases le_or_lt y h2v with hy1 | hy1
    · rw [if_pos hx1, if_pos hy1]
      have hprod : 0 ≤ (y - x) * ((Rc - x) + (Rc - y)) :=
        mul_nonneg (by linarith) (by linarith)
      have hid : (x - Rc) ^ 2 - (y - Rc) ^ 2 = (y - x) * ((Rc - x) + (Rc - y)) := by
        ring
      have hsq : (y - Rc) ^ 2 ≤ (x - Rc) ^ 2 := by linarith [hprod, hid]
      exact add_le_add_right
        (Real.sqrt_le_sqrt (max_le_max (by linarith) le_rfl)) 0
    · rw [if_pos hx1, if_neg (not_le.2 hy1)]
      rcases le_or_lt y hp2 with hy2 | hy2
      · rw [if_pos hy2]
        have h1 := crown_le x hx1
        have h2 := knuckle_ge y hy1.le hy2
        linarith [hjoin]
      · rw [if_neg (not_le.2 hy2)]
        have h1 := crown_le x hx1
        linarith [hcrR]
  · rcases le_or_lt y h2v with hy1 | hy1
    · exact absurd (le_trans hxy hy1) (not_le.2 hx1)
    · rw [if_neg (not_le.2 hx1), if_neg (not_le.2 hy1)]
      rcases le_or_lt x hp2 with hx2 | hx2
      · rcases le_or_lt y hp2 with hy2 | hy2
        · rw [if_pos hx2, if_pos hy2]
          have hprod : 0 ≤ (y - x) * ((hp2 - x) + (hp2 - y)) :=
            mul_nonneg (by linarith) (by linarith)
          have hid : (x - hp2) ^ 2 - (y - hp2) ^ 2 = (y - x) * ((hp2 - x) + (hp2 - y)) := by
            ring
          have hsq : (y - hp2) ^ 2 ≤ (x - hp2) ^ 2 := by linarith [hprod, hid]
          exact add_le_add_right
            (Real.sqrt_le_sqrt (max_le_max (by linarith) le_rfl)) b
        · rw [if_pos hx2, if_neg (not_le.2 hy2)]
          exact knuckle_le x
      · rcases le_or_lt y hp2 with hy2 | hy2
        · exact absurd (le_trans hxy hy2) (not_le.2 hx2)
        · rw [if_neg (not_le.2 hx2), if_neg (not_le.2 hy2)]

/-- The ASME F&D profile with zero wall thickness is monotone non-decreasing. -/
lemma ASMEFDHead_radius_mono_zero (D : ℝ) (hD : 0 < D) :
    ∀ x y, x ≤ y →
      (ASMEFDHead D 0).radius_at_height x ≤ (ASMEFDHead D 0).radius_at_height y := by
  intro x y hxy
  exact toris_profile_mono (1.00 * D) (0.06 * D) (1.00 * D - 0) (0.06 * D - 0)
    (D / 2 - 0) ((D - 2 * (0.06 * D)) / 2)
    (1.00 * D - Real.sqrt ((1.00 * D - 0.06 * D) ^ 2 - (D / 2 - 0.06 * D) ^ 2))
    (1.00 * D -
      Real.cos (Real.arcsin ((D - 2 * (0.06 * D)) / 2 / (1.00 * D - 0.06 * D))) *
        (1.00 * D))
    (by ring) (by ring) (by ring) (by linarith) (by linarith) (by linarith) rfl
    (by rw [show (1.00 * D - 0.06 * D) ^ 2 - ((D - 2 * (0.06 * D)) / 2) ^ 2 =
        (1.00 * D - 0.06 * D) ^ 2 - (D / 2 - 0.06 * D) ^ 2 from by ring])
    x y hxy

/-- The ASME F&D profile with zero wall thickness is non-negative. -/
lemma ASMEFDHead_radius_nonneg_zero (D : ℝ) (hD : 0 < D) :
    ∀ x, 0 ≤ (ASMEFDHead D 0).radius_at_height x := by
  intro x
  exact toris_profile_nonneg (1.00 * D) (0.06 * D) (1.00 * D - 0) (0.06 * D - 0)
    (D / 2 - 0) ((D - 2 * (0.06 * D)) / 2)
    (1.00 * D - Real.sqrt ((1.00 * D - 0.06 * D) ^ 2 - (D / 2 - 0.06 * D) ^ 2))
    (1.00 * D -
      Real.cos (Real.arcsin ((D - 2 * (0.06 * D)) / 2 / (1.00 * D - 0.06 * D))) *
        (1.00 * D))
    x (by linarith) (by linarith) (by ring)

/-- The 2:1 ellipsoidal profile with zero wall thickness is monotone
non-decreasing. -/
lemma Elliptical2to1Head_radius_mono_zero (D : ℝ) (hD : 0 < D) :
    ∀ x y, x ≤ y →
      (Elliptical2to1Head D 0).radius_at_height x ≤
        (Elliptical2to1Head D 0).radius_at_height y := by
  intro x y hxy
  exact toris_profile_mono (0.90 * D) (0.17 * D) (0.90 * D - 0) (0.17 * D - 0)
    (D / 2 - 0) ((D - 2 * (0.17 * D)) / 2)
    (0.90 * D - Real.sqrt ((0.90 * D - 0.17 * D) ^ 2 - (D / 2 - 0.17 * D) ^ 2))
    (0.90 * D -
      Real.cos (Real.arcsin ((D - 2 * (0.17 * D)) / 2 / (0.90 * D - 0.17 * D))) *
        (0.90 * D))
    (by ring) (by ring) (by ring) (by linarith) (by linarith) (by linarith) rfl
    (by rw [show (0.90 * D - 0.17 * D) ^ 2 - ((D - 2 * (0.17 * D)) / 2) ^ 2 =
        (0.90 * D - 0.17 * D) ^ 2 - (D / 2 - 0.17 * D) ^ 2 from by ring])
    x y hxy

/-- The 2:1 ellipsoidal profile with zero wall thickness is non-negative. -/
lemma Elliptical2to1Head_radius_nonneg_zero (D : ℝ) (hD : 0 < D) :
    ∀ x, 0 ≤ (Elliptical2to1Head D 0).radius_at_height x := by
  intro x
  exact toris_profile_nonneg (0.90 * D) (0.17 * D) (0.90 * D - 0) (0.17 * D - 0)
    (D / 2 - 0) ((D - 2 * (0.17 * D)) / 2)
    (0.90 * D - Real.sqrt ((0.90 * D - 0.17 * D) ^ 2 - (D / 2 - 0.17 * D) ^ 2))
    (0.90 * D -
      Real.cos (Real.arcsin ((D - 2 * (0.17 * D)) / 2 / (0.90 * D - 0.17 * D))) *
        (0.90 * D))
    x (by linarith) (by linarith) (by ring)

/-- Evaluation of `build_head` on the concrete hemispherical unit vessel. -/
lemma build_head_hemi_unit :
    build_head ("Hemispherical") 1 0 = .ok (HemisphericalHead 1 (0 / 1000)) := by
  unfold build_head
  rw [if_neg (by norm_num : ¬(1 : ℝ) ≤ 0), if_neg (by norm_num : ¬(0 : ℝ) < 0),
    if_neg (by norm_num : ¬(1 : ℝ) / 2 ≤ 0 / 1000),
    if_neg (by decide : ¬("Hemispherical" = "ASME_FD")),
    if_neg (by decide : ¬("Hemispherical" = "Ellipsoidal")), if_pos rfl]

/-- Capacity bound for the hemispherical unit vessel: its total volume is
below 2. -/
lemma hemi_unit_V_max_lt :
    (HemisphericalHead 1 (0 / 1000)).max_head_volume * 2 +
      Real.pi * (HemisphericalHead 1 (0 / 1000)).radius ^ 2 * 1 < 2 := by
  have h0 : (0 : ℝ) ≤ 1 / 2 - 0 / 1000 := by norm_num
  have hh : (HemisphericalHead 1 (0 / 1000)).h1 ≤ (HemisphericalHead 1 (0 / 1000)).hTop := by
    show (0 : ℝ) ≤ 1 / 2 - 0 / 1000
    norm_num
  have hble := volume_up_to_le_of_radius_le (HemisphericalHead 1 (0 / 1000))
    (HemisphericalHead 1 (0 / 1000)).hTop 500 (1 / 2 - 0 / 1000) hh
    (fun x => HemisphericalHead_radius_nonneg 1 (0 / 1000) x h0)
    (fun x => HemisphericalHead_radius_le 1 (0 / 1000) x h0)
  have e1 : (HemisphericalHead 1 (0 / 1000)).h1 = 0 := rfl
  have e2 : (HemisphericalHead 1 (0 / 1000)).hTop = 1 / 2 - 0 / 1000 := rfl
  have hmv : (HemisphericalHead 1 (0 / 1000)).max_head_volume =
      (HemisphericalHead 1 (0 / 1000)).volume_up_to
        (HemisphericalHead 1 (0 / 1000)).hTop 500 := rfl
  have hR : ((HemisphericalHead 1 (0 / 1000)).radius : ℝ) = 1 / 2 - 0 / 1000 := rfl
  rw [e1, e2] at hble
  rw [hmv, e2, hR]
  have hpi : Real.pi < 3.15 := by
    have := Real.pi_lt_315
    linarith
  nlinarith [Real.pi_pos]

/-- Shifted max bound: `max · 0` grows at most by the growth of its
argument. -/
lemma max_zero_le_add {a b : ℝ} (hba : b ≤ a) : max a 0 ≤ max b 0 + (a - b) :=
  max_le (by linarith [le_max_left b 0]) (by linarith [le_max_right b 0])

lemma sqrt69_sq : Real.sqrt 69 ^ 2 = 69 := Real.sq_sqrt (by norm_num)

lemma sqrt69_lo : (830662386 / 10 ^ 8 : ℝ) ≤ Real.sqrt 69 := by
  rw [show (830662386 / 10 ^ 8 : ℝ) = Real.sqrt ((830662386 / 10 ^ 8) ^ 2) from
    (Real.sqrt_sq (by norm_num)).symm]
  exact Real.sqrt_le_sqrt (by norm_num)

lemma sqrt69_hi : Real.sqrt 69 ≤ 830662387 / 10 ^ 8 := by
  rw [show (830662387 / 10 ^ 8 : ℝ) = Real.sqrt ((830662387 / 10 ^ 8) ^ 2) from
    (Real.sqrt_sq (by norm_num)).symm]
  exact Real.sqrt_le_sqrt (by norm_num)

/-- The crown/knuckle tangency cosine of the unit ASME F&D head:
`cos(asin(22/47)) = 5·√69/47`. -/
lemma cexASME_cos :
    Real.cos (Real.arcsin ((1 - 2 * (0.06 * 1)) / 2 / (1.00 * 1 - 0.06 * 1))) =
      5 * Real.sqrt 69 / 47 := by
  rw [Real.cos_arcsin,
    show ((1 - 2 * (0.06 * 1)) / 2 / (1.00 * 1 - 0.06 * 1) : ℝ) = 22 / 47 from by norm_num,
    show (1 - (22 / 47 : ℝ) ^ 2) = (5 * Real.sqrt 69 / 47) ^ 2 from by
      rw [show (5 * Real.sqrt 69 / 47 : ℝ) ^ 2 = 25 * Real.sqrt 69 ^ 2 / 2209 from by ring,
        sqrt69_sq]
      norm_num]
  exact Real.sqrt_sq (by positivity)

/-- The knuckle-centre height root of the unit ASME F&D head:
`√(0.94² - 0.44²) = √69/10`. -/
lemma cexASME_root :
    Real.sqrt ((1.00 * 1 - 0.06 * 1) ^ 2 - (1 / 2 - 0.06 * 1) ^ 2) =
      Real.sqrt 69 / 10 := by
  rw [show ((1.00 * 1 - 0.06 * 1 : ℝ) ^ 2 - (1 / 2 - 0.06 * 1) ^ 2) =
      (Real.sqrt 69 / 10) ^ 2 from by
    rw [show (Real.sqrt 69 / 10 : ℝ) ^ 2 = Real.sqrt 69 ^ 2 / 100 from by ring, sqrt69_sq]
    norm_num]
  exact Real.sqrt_sq (by positivity)

/-- Below `0.116316601` the profile of `ASMEFDHead 1 (1/100)` is on the crown
branch. -/
lemma cexASME_crown_case (x : ℝ) (hx : x ≤ 116316601 / 10 ^ 9) :
    (ASMEFDHead 1 (1 / 100)).radius_at_height x =
      Real.sqrt (max ((1.00 * 1 - 1 / 100) ^ 2 - (x - 1.00 * 1) ^ 2) 0) + 0 := by
  have hcond : x ≤ 1.00 * 1 -
      Real.cos (Real.arcsin ((1 - 2 * (0.06 * 1)) / 2 / (1.00 * 1 - 0.06 * 1))) *
        (1.00 * 1) := by
    rw [cexASME_cos]
    linarith [sqrt69_hi]
  exact if_pos hcond

/-- Between `0.1163167` and `0.11631671` the profile of `ASMEFDHead 1 (1/100)`
is on the knuckle branch. -/
lemma cexASME_knuckle_case (x : ℝ) (hx1 : 11631670 / 10 ^ 8 ≤ x)
    (hx2 : x ≤ 11631671 / 10 ^ 8) :
    (ASMEFDHead 1 (1 / 100)).radius_at_height x =
      Real.sqrt (max ((0.06 * 1 - 1 / 100) ^ 2 -
        (x - (1.00 * 1 -
          Real.sqrt ((1.00 * 1 - 0.06 * 1) ^ 2 - (1 / 2 - 0.06 * 1) ^ 2))) ^ 2) 0) +
        (1 - 2 * (0.06 * 1)) / 2 := by
  have hc1 : ¬(x ≤ 1.00 * 1 -
      Real.cos (Real.arcsin ((1 - 2 * (0.06 * 1)) / 2 / (1.00 * 1 - 0.06 * 1))) *
        (1.00 * 1)) := by
    rw [cexASME_cos]
    push_neg
    linarith [sqrt69_lo]
  have hc2 : x ≤ 1.00 * 1 -
      Real.sqrt ((1.00 * 1 - 0.06 * 1) ^ 2 - (1 / 2 - 0.06 * 1) ^ 2) := by
    rw [cexASME_root]
    linarith [sqrt69_hi]
  exact (if_neg hc1).trans (if_pos hc2)

/-! ## Theorems about the claims -/

/-- C1.  For every numeric wetted area `A ≥ 0` and design pressure `P`
(barg), `heat_load_api2000` returns `0` when `A = 0`; `10800·A` when
`P > 1.034`; otherwise `63150·A` when `A < 18.6`, `224200·A^0.566` when
`18.6 ≤ A < 93` (so the `A ≥ 18.6` band is used at exactly `A = 18.6`),
`630400·A^0.338` when `93 ≤ A < 260`, `43200·A^0.82` when `A ≥ 260` and
`P ≥ 0.07`, and the constant `4129700.0` W when `A ≥ 260` and `P < 0.07`. -/
theorem heat_load_api2000_piecewise (A P : ℝ) (hA : 0 ≤ A) :
    (A = 0 → heat_load_api2000 A P = .ok 0) ∧
    (1.034 < P → heat_load_api2000 A P = .ok (10800.0 * A)) ∧
    (P ≤ 1.034 → A < 18.6 → heat_load_api2000 A P = .ok (63150 * A)) ∧
    (P ≤ 1.034 → 18.6 ≤ A → A < 93 →
      heat_load_api2000 A P = .ok (224200 * A ^ (0.566 : ℝ))) ∧
    (P ≤ 1.034 → 93 ≤ A → A < 260 →
      heat_load_api2000 A P = .ok (630400 * A ^ (0.338 : ℝ))) ∧
    (P ≤ 1.034 → 260 ≤ A → 0.07 ≤ P →
      heat_load_api2000 A P = .ok (43200 * A ^ (0.82 : ℝ))) ∧
    (P ≤ 1.034 → 260 ≤ A → P < 0.07 → heat_load_api2000 A P = .ok 4129700.0) := by
  have hA0 : ¬(A < 0) := not_lt.2 hA
  refine ⟨?_, ?_, ?_, ?_, ?_, ?_, ?_⟩
  · intro h0
    simp only [heat_load_api2000, if_neg hA0, if_pos h0]
  · intro hP
    by_cases h0 : A = 0
    · subst h0
      simp only [heat_load_api2000, if_neg hA0, if_pos rfl]
      norm_num
    · simp only [heat_load_api2000, if_neg hA0, if_neg h0, if_pos hP]
  · intro hP h18
    by_cases h0 : A = 0
    · subst h0
      simp only [heat_load_api2000, if_neg hA0, if_pos rfl]
      norm_num
    · simp only [heat_load_api2000, if_neg hA0, if_neg h0, if_neg (not_lt.2 hP), if_pos h18]
  · intro hP h18 h93
    have h0 : ¬(A = 0) := by intro h; rw [h] at h18; norm_num at h18
    simp only [heat_load_api2000, if_neg hA0, if_neg h0, if_neg (not_lt.2 hP),
      if_neg (not_lt.2 h18), if_pos (show (18.6:ℝ) ≤ A ∧ A < 93 from ⟨h18, h93⟩)]
  · intro hP h93 h260
    have h18 : (18.6 : ℝ) ≤ A := by linarith
    have h0 : ¬(A = 0) := by intro h; rw [h] at h18; norm_num at h18
    simp only [heat_load_api2000, if_neg hA0, if_neg h0, if_neg (not_lt.2 hP),
      if_neg (not_lt.2 h18),
      if_neg (show ¬((18.6:ℝ) ≤ A ∧ A < 93) from fun hc => absurd h93 (not_le.2 hc.2)),
      if_pos (show (93:ℝ) ≤ A ∧ A < 260 from ⟨h93, h260⟩)]
  · intro hP h260 h007
    have h18 : (18.6 : ℝ) ≤ A := by linarith
    have h0 : ¬(A = 0) := by intro h; rw [h] at h18; norm_num at h18
    simp only [heat_load_api2000, if_neg hA0, if_neg h0, if_neg (not_lt.2 hP),
      if_neg (not_lt.2 h18),
      if_neg (show ¬((18.6:ℝ) ≤ A ∧ A < 93) from fun hc => by linarith [hc.2]),
      if_neg (show ¬((93:ℝ) ≤ A ∧ A < 260) from fun hc => by linarith [hc.2]),
      if_pos (show (260:ℝ) ≤ A ∧ 0.07 ≤ P from ⟨h260, h007⟩)]
  · intro hP h260 h007
    have h18 : (18.6 : ℝ) ≤ A := by linarith
    have h0 : ¬(A = 0) := by intro h; rw [h] at h18; norm_num at h18
    simp only [heat_load_api2000, if_neg hA0, if_neg h0, if_neg (not_lt.2 hP),
      if_neg (not_lt.2 h18),
      if_neg (show ¬((18.6:ℝ) ≤ A ∧ A < 93) from fun hc => by linarith [hc.2]),
      if_neg (show ¬((93:ℝ) ≤ A ∧ A < 260) from fun hc => by linarith [hc.2]),
      if_neg (show ¬((260:ℝ) ≤ A ∧ 0.07 ≤ P) from fun hc => by linarith [hc.2]),
      if_pos (show (260:ℝ) ≤ A ∧ P < 0.07 from ⟨h260, h007⟩)]

/-- Witness for C1: the second band is selected at `A = 20`, `P = 0`. -/
theorem heat_load_api2000_piecewise_w :
    heat_load_api2000 20 0 = .ok (224200 * (20 : ℝ) ^ (0.566 : ℝ)) :=
  (heat_load_api2000_piecewise 20 0 (by norm_num)).2.2.2.1 (by norm_num) (by norm_num)
    (by norm_num)

/-- C7. The function `heat_load_api2000` fails with a domain error only if the area is
negative: for every non-negative area and every design pressure it returns a
value, and a negative area yields the negative-area error. -/
theorem heat_load_api2000_error_only_negative :
    (∀ A P : ℝ, 0 ≤ A → ∃ v, heat_load_api2000 A P = .ok v) ∧
    (∀ A P : ℝ, A < 0 → heat_load_api2000 A P = .error (.negativeArea A)) := by
  refine ⟨fun A P hA => heat_load_api2000_total A P hA, fun A P hA => ?_⟩
  unfold heat_load_api2000
  rw [if_pos hA]

/-- Witness for C7 at `A = 1, P = 1` and `A = -1, P = 1`. -/
theorem heat_load_api2000_error_only_negative_w :
    (∃ v, heat_load_api2000 1 1 = .ok v) ∧
    heat_load_api2000 (-1) 1 = .error (.negativeArea (-1)) :=
  ⟨heat_load_api2000_error_only_negative.1 1 1 (by norm_num),
   heat_load_api2000_error_only_negative.2 (-1) 1 (by norm_num)⟩

/-- C10.  The terminal "Unexpected API2000 input combination" raise of
`heat_load_api2000` is unreachable: for every real `A ≥ 0` and every `P`, one
of the return statements is taken before it. -/
theorem heat_load_api2000_unexpected_unreachable (A P : ℝ) (hA : 0 ≤ A) :
    heat_load_api2000 A P ≠ .error (.unexpected A P) := by
  obtain ⟨v, hv⟩ := heat_load_api2000_total A P hA
  rw [hv]
  simp

/-- Witness for C10 at `A = 0, P = 0`. -/
theorem heat_load_api2000_unexpected_unreachable_w :
    heat_load_api2000 0 0 ≠ .error (.unexpected 0 0) :=
  heat_load_api2000_unexpected_unreachable 0 0 le_rfl

/-- C2.  For every `P1 > 0`, `P_back ≥ 0`, `atm > 0` and `k > 1`,
`critical_downstream_pressure P1 k` returns `P1·(2/(k+1))^(k/(k-1))` and
`is_critical_flow` classifies the flow as critical exactly when that value
exceeds `downstream_pressure = P_back + atm`; moreover
`critical_downstream_pressure(100, 1.4)` is approximately `52.8`. -/
theorem is_critical_flow_iff :
    (∀ P1 Pb atm k : ℝ, 0 < P1 → 0 ≤ Pb → 0 < atm → 1 < k →
      critical_downstream_pressure P1 k =
        .ok ((2.0 / (k + 1.0)) ^ (k / (k - 1.0)) * P1) ∧
      (is_critical_flow P1 Pb atm k = .ok true ↔
        P1 * (2 / (k + 1)) ^ (k / (k - 1)) > Pb + atm)) ∧
    (∃ r : ℝ, critical_downstream_pressure 100 1.4 = .ok r ∧ |r - 52.8| < 1 / 10) := by
  have hmain : ∀ P1 k : ℝ, 0 < P1 → 1 < k →
      critical_downstream_pressure P1 k =
        .ok ((2.0 / (k + 1.0)) ^ (k / (k - 1.0)) * P1) := by
    intro P1 k hP1 hk
    unfold critical_downstream_pressure
    rw [if_neg (not_le.2 hP1),
      if_neg (show ¬(k ≤ 1.0) by rw [show (1.0 : ℝ) = 1 by norm_num]; exact not_le.2 hk)]
  constructor
  · intro P1 Pb atm k hP1 hPb hatm hk
    refine ⟨hmain P1 k hP1 hk, ?_⟩
    have e2 : downstream_pressure Pb atm = .ok (Pb + atm) := by
      unfold downstream_pressure
      rw [if_neg (not_lt.2 hPb), if_neg (not_le.2 hatm)]
    unfold is_critical_flow
    rw [hmain P1 k hP1 hk, e2]
    simp only [bind, Except.bind, pure, Except.pure, Except.ok.injEq, decide_eq_true_eq]
    have harg : ((2.0 : ℝ) / (k + 1.0)) ^ (k / (k - 1.0)) = ((2 : ℝ) / (k + 1)) ^ (k / (k - 1)) := by
      norm_num
    rw [harg, mul_comm (((2 : ℝ) / (k + 1)) ^ (k / (k - 1))) P1]
  · refine ⟨(2.0 / (1.4 + 1.0)) ^ ((1.4 : ℝ) / (1.4 - 1.0)) * 100,
      hmain 100 1.4 (by norm_num) (by norm_num), ?_⟩
    rw [abs_sub_lt_iff]
    constructor <;> linarith [critical_ratio_bounds.1, critical_ratio_bounds.2]

/-- Witness for C2 at `P1 = 100`, `P_back = 0`, `atm = 14.7`, `k = 1.4`. -/
theorem is_critical_flow_iff_w :
    critical_downstream_pressure 100 1.4 =
      .ok ((2.0 / ((1.4 : ℝ) + 1.0)) ^ ((1.4 : ℝ) / (1.4 - 1.0)) * 100) ∧
    (is_critical_flow 100 0 14.7 1.4 = .ok true ↔
      (100 : ℝ) * (2 / (1.4 + 1)) ^ ((1.4 : ℝ) / (1.4 - 1)) > 0 + 14.7) :=
  is_critical_flow_iff.1 100 0 14.7 1.4 (by norm_num) (by norm_num) (by norm_num)
    (by norm_num)

/-- C3.  For every `A_required ≥ 0`: if `A_required ≤ 26` (the largest
table area), `select_orifice` returns a table entry whose area is the
smallest one `≥ A_required` (the returned area meets the requirement and
every strictly smaller table area misses it); `select_orifice 0` returns
letter `"D"`; and for `A_required > 26` it raises the capacity error naming
the maximum orifice `"T"` at `26.0` in². -/
theorem select_orifice_spec :
    (∀ A : ℚ, 0 ≤ A → A ≤ 26 →
      ∃ r, select_orifice A = .ok r ∧ (r.letter, r.area_in2) ∈ API_ORIFICES ∧
        A ≤ r.area_in2 ∧ ∀ e ∈ API_ORIFICES, e.2 < r.area_in2 → e.2 < A) ∧
    (∃ r, select_orifice 0 = .ok r ∧ r.letter = "D") ∧
    (∀ A : ℚ, 26 < A →
      select_orifice A = .error (.capacity ("T") MAX_ORIFICE_AREA) ∧
      MAX_ORIFICE_AREA = 26) := by
  refine ⟨?_, ?_, ?_⟩
  · intro A h0 h26
    by_cases hA0 : A = 0
    · subst hA0
      unfold select_orifice
      rw [if_neg (by norm_num : ¬(0 : ℚ) < 0), if_pos rfl]
      refine ⟨⟨"D", 0.110, get_orifice_diameter 0.110, inlet_size ("D")⟩, rfl, ?_, ?_, ?_⟩
      · simp [API_ORIFICES]
      · norm_num
      · simp only [API_ORIFICES, List.forall_mem_cons, List.forall_mem_nil]
        norm_num
    · obtain ⟨r0, hr0⟩ :=
        findFirstOrifice_isSome (A := A) (l := API_ORIFICES) ("T", 26.000)
          (by simp [API_ORIFICES]) (le_trans h26 (by norm_num))
      unfold select_orifice
      rw [if_neg (not_lt.2 h0), if_neg hA0, hr0]
      obtain ⟨hmem, hAle⟩ := findFirstOrifice_mem hr0
      exact ⟨_, rfl, by simpa using hmem, hAle,
        findFirstOrifice_min API_ORIFICES_sorted hr0⟩
  · refine ⟨⟨"D", 0.110, get_orifice_diameter 0.110, inlet_size ("D")⟩, ?_, rfl⟩
    unfold select_orifice
    rw [if_neg (by norm_num : ¬(0 : ℚ) < 0), if_pos rfl]
  · intro A h26
    have hall : ∀ e ∈ API_ORIFICES, e.2 ≤ 26 := by
      simp only [API_ORIFICES, List.forall_mem_cons, List.forall_mem_nil]
      norm_num
    have hnone : findFirstOrifice A API_ORIFICES = none :=
      findFirstOrifice_none fun e he => lt_of_le_of_lt (hall e he) h26
    have h0 : (0 : ℚ) ≤ A := le_of_lt (lt_trans (by norm_num) h26)
    have hA0 : A ≠ 0 := by
      intro h
      rw [h] at h26
      norm_num at h26
    unfold select_orifice
    rw [if_neg (not_lt.2 h0), if_neg hA0, hnone]
    exact ⟨rfl, by norm_num [MAX_ORIFICE_AREA, API_ORIFICES, List.foldl, max_def]⟩

/-- Witness for C3 at `A_required = 5` (selects orifice "P", 6.380 in²). -/
theorem select_orifice_spec_w :
    ∃ r, select_orifice 5 = .ok r ∧ (r.letter, r.area_in2) ∈ API_ORIFICES ∧
      (5 : ℚ) ≤ r.area_in2 ∧ ∀ e ∈ API_ORIFICES, e.2 < r.area_in2 → e.2 < 5 :=
  select_orifice_spec.1 5 (by norm_num) (by norm_num)

/-- C8, counterexample.  The claim "`evaporation_rate` fails with a
validation error whenever `h_fg ≤ 0`" is false at `Q_W = 0`, `h_fg = -5`: the
`Q = 0` short-circuit runs before the enthalpy validation, so the call
returns `0` instead of failing. -/
theorem evaporation_rate_hfg_claim_cex :
    (-5 : ℚ) ≤ 0 ∧ evaporation_rate 0 (-5) = .ok 0 := by
  refine ⟨by norm_num, ?_⟩
  rfl

/-- C8, amended. The call `evaporation_rate Q h` returns `Q / h` for `Q > 0` and
`h_fg > 0`, returns exactly `0` when `Q = 0` (regardless of `h_fg`), and fails
with the non-positive-enthalpy validation error whenever `Q > 0` and
`h_fg ≤ 0`. -/
theorem evaporation_rate_amended (Q h : ℚ) :
    (0 < Q → 0 < h → evaporation_rate Q h = .ok (Q / h)) ∧
    (Q = 0 → evaporation_rate Q h = .ok 0) ∧
    (0 < Q → h ≤ 0 → evaporation_rate Q h = .error (.nonPositiveHfg h)) := by
  refine ⟨fun hQ hh => ?_, fun hQ => ?_, fun hQ hh => ?_⟩
  · simp only [evaporation_rate, if_neg (not_lt.2 hQ.le), if_neg (ne_of_gt hQ),
      if_neg (not_le.2 hh)]
  · simp only [evaporation_rate, if_neg (not_lt.2 hQ.ge), if_pos hQ]
  · simp only [evaporation_rate, if_neg (not_lt.2 hQ.le), if_neg (ne_of_gt hQ), if_pos hh]

/-- Witness for the amended C8 at `Q = 6`, `h_fg = 3`. -/
theorem evaporation_rate_amended_w : evaporation_rate 6 3 = .ok (6 / 3) :=
  (evaporation_rate_amended 6 3).1 (by norm_num) (by norm_num)

/-- C9.  For every head object, shell height and step count, a negative
liquid height makes `wetted_area_up_to_height` return `0.0` instead of
raising. -/
theorem wetted_area_up_to_height_neg (head : Head) (H shell : ℝ) (steps : ℕ)
    (hs : 0 ≤ shell) (hH : H < 0) :
    wetted_area_up_to_height H head shell steps = .ok 0 := by
  unfold wetted_area_up_to_height
  rw [if_pos hH]

/-- Witness for C9 at `H = -1` on a hemispherical head with shell height 0. -/
theorem wetted_area_up_to_height_neg_w :
    wetted_area_up_to_height (-1) (HemisphericalHead 1 0) 0 500 = .ok 0 :=
  wetted_area_up_to_height_neg (HemisphericalHead 1 0) (-1) 0 500 le_rfl (by norm_num)

/-- C4.  For every valid vertical-vessel input within capacity,
`wetted_area_from_fill_volume` computes the exposed liquid height as
`min(liquid_height, max(0, fire_height - bottom_elevation))` and returns the
wetted area integrated up to that exposed height together with both height
figures; whenever `fire_height - bottom_elevation ≤ 0` it returns
`wetted_area_m2 = 0` and `liquid_height_exposed_m = 0` by the early return,
without invoking the wetted-area integration. -/
theorem wetted_area_from_fill_volume_exposed (ht : String)
    (L OD t_mm bottom fire fill : ℝ) (steps : ℕ)
    (hmem : ht ∈ (["ASME_FD", "Ellipsoidal", "Hemispherical"] : List String))
    (hOD : 0 < OD) (htm : 0 ≤ t_mm) (hL : 0 ≤ L) (hb : 0 ≤ bottom) (hf : 0 ≤ fire)
    (hfill : 0 ≤ fill) (hsteps : 10 ≤ steps) (hthick : t_mm / 1000 < OD / 2)
    (head : Head) (hhead : build_head ht OD t_mm = .ok head)
    (hcap : fill ≤ head.max_head_volume * 2 + Real.pi * head.radius ^ 2 * L) :
    ∃ r, wetted_area_from_fill_volume ("Vertical") ht L OD t_mm bottom fire fill steps =
        .ok r ∧
      r.liquid_height_m = liquid_height_from_volume fill head L ∧
      r.liquid_height_exposed_m =
        min (liquid_height_from_volume fill head L) (max 0 (fire - bottom)) ∧
      (fire - bottom ≤ 0 → r.liquid_height_exposed_m = 0 ∧ r.wetted_area_m2 = 0) ∧
      (0 < fire - bottom →
        wetted_area_up_to_height r.liquid_height_exposed_m head L steps =
          .ok r.wetted_area_m2) :=
  wetted_area_from_fill_volume_eval ht L OD t_mm bottom fire fill steps hmem hOD htm hL
    hb hf hfill hsteps hthick head hhead hcap

/-- Witness for C4: unit hemispherical vessel whose bottom sits above the
flame (`fire = 0 < 1 = bottom`), taking the early-return branch. -/
theorem wetted_area_from_fill_volume_exposed_w :
    ∃ r, wetted_area_from_fill_volume ("Vertical") ("Hemispherical") 1 1 0 1 0 0 500 =
        .ok r ∧
      r.liquid_height_m = liquid_height_from_volume 0 (HemisphericalHead 1 (0 / 1000)) 1 ∧
      r.liquid_height_exposed_m =
        min (liquid_height_from_volume 0 (HemisphericalHead 1 (0 / 1000)) 1)
          (max 0 ((0 : ℝ) - 1)) ∧
      ((0 : ℝ) - 1 ≤ 0 → r.liquid_height_exposed_m = 0 ∧ r.wetted_area_m2 = 0) ∧
      (0 < (0 : ℝ) - 1 →
        wetted_area_up_to_height r.liquid_height_exposed_m (HemisphericalHead 1 (0 / 1000))
          1 500 = .ok r.wetted_area_m2) :=
  wetted_area_from_fill_volume_exposed ("Hemispherical") 1 1 0 1 0 0 500 (by simp)
    (by norm_num) le_rfl (by norm_num) (by norm_num) le_rfl le_rfl (by norm_num)
    (by norm_num) (HemisphericalHead 1 (0 / 1000)) build_head_hemi_unit
    (by
      have hv := volume_up_to_nonneg (HemisphericalHead 1 (0 / 1000))
        (HemisphericalHead 1 (0 / 1000)).hTop 500
        (by show (0 : ℝ) ≤ 1 / 2 - 0 / 1000; norm_num)
      have hmv : (HemisphericalHead 1 (0 / 1000)).max_head_volume =
          (HemisphericalHead 1 (0 / 1000)).volume_up_to
            (HemisphericalHead 1 (0 / 1000)).hTop 500 := rfl
      rw [hmv]
      nlinarith [sq_nonneg ((HemisphericalHead 1 (0 / 1000)).radius), Real.pi_pos])

/-- C6.  On otherwise-valid input, a fill volume strictly exceeding the
vessel capacity `2·max_head_volume + π·R²·L` makes
`wetted_area_from_fill_volume` fail with the capacity-exceeded error stating
both volumes (no clamping, no result), while a fill volume at or below
capacity succeeds. -/
theorem wetted_area_from_fill_volume_capacity (ht : String)
    (L OD t_mm bottom fire fill : ℝ) (steps : ℕ)
    (hmem : ht ∈ (["ASME_FD", "Ellipsoidal", "Hemispherical"] : List String))
    (hOD : 0 < OD) (htm : 0 ≤ t_mm) (hL : 0 ≤ L) (hb : 0 ≤ bottom) (hf : 0 ≤ fire)
    (hfill : 0 ≤ fill) (hsteps : 10 ≤ steps) (hthick : t_mm / 1000 < OD / 2)
    (head : Head) (hhead : build_head ht OD t_mm = .ok head) :
    (head.max_head_volume * 2 + Real.pi * head.radius ^ 2 * L < fill →
      wetted_area_from_fill_volume ("Vertical") ht L OD t_mm bottom fire fill steps =
        .error (.capacityExceeded fill
          (head.max_head_volume * 2 + Real.pi * head.radius ^ 2 * L))) ∧
    (fill ≤ head.max_head_volume * 2 + Real.pi * head.radius ^ 2 * L →
      ∃ r, wetted_area_from_fill_volume ("Vertical") ht L OD t_mm bottom fire fill steps =
        .ok r) := by
  constructor
  · intro hgt
    simp only [wetted_area_from_fill_volume]
    rw [if_neg (show ¬("Vertical" ≠ "Vertical") by simp),
      if_neg (not_not_intro hmem),
      if_neg (not_le.2 hOD), if_neg (not_lt.2 htm), if_neg (not_lt.2 hL),
      if_neg (not_lt.2 hb), if_neg (not_lt.2 hf), if_neg (not_lt.2 hfill),
      if_neg (not_lt.2 hsteps), if_neg (not_le.2 hthick), hhead]
    simp only [Except.bind]
    rw [if_pos hgt]
  · intro hle
    obtain ⟨r, hr, -⟩ := wetted_area_from_fill_volume_eval ht L OD t_mm bottom fire fill
      steps hmem hOD htm hL hb hf hfill hsteps hthick head hhead hle
    exact ⟨r, hr⟩

/-- Witness for C6: a fill volume of 100 m³ exceeds the unit hemispherical
vessel's capacity and triggers the capacity error. -/
theorem wetted_area_from_fill_volume_capacity_w :
    wetted_area_from_fill_volume ("Vertical") ("Hemispherical") 1 1 0 0 0 100 500 =
      .error (.capacityExceeded 100
        ((HemisphericalHead 1 (0 / 1000)).max_head_volume * 2 +
          Real.pi * (HemisphericalHead 1 (0 / 1000)).radius ^ 2 * 1)) :=
  (wetted_area_from_fill_volume_capacity ("Hemispherical") 1 1 0 0 0 100 500 (by simp)
    (by norm_num) le_rfl (by norm_num) le_rfl le_rfl (by norm_num) (by norm_num)
    (by norm_num) (HemisphericalHead 1 (0 / 1000)) build_head_hemi_unit).1
    (lt_trans hemi_unit_V_max_lt (by norm_num))

/-- C5, amended. The identity `volume_up_to(h1) = 0` holds for all three head variants
and every valid `(diameter, thickness)`; monotonicity of `volume_up_to` (with
the default 500 steps) holds for `HemisphericalHead` for every valid
`(diameter, thickness)` and for `ASMEFDHead` / `Elliptical2to1Head` with zero
wall thickness.  (For positive thickness the torispherical profiles jump at
the crown/knuckle transition and monotonicity fails; see the
counterexample.) -/
theorem volume_up_to_props_amended :
    (∀ D t : ℝ, 0 < D → 0 ≤ t → t < D / 2 → ∀ h h' : ℝ,
      (HemisphericalHead D t).h1 ≤ h → h ≤ h' →
      (HemisphericalHead D t).volume_up_to h 500 ≤
        (HemisphericalHead D t).volume_up_to h' 500) ∧
    (∀ D : ℝ, 0 < D → ∀ h h' : ℝ, (ASMEFDHead D 0).h1 ≤ h → h ≤ h' →
      (ASMEFDHead D 0).volume_up_to h 500 ≤ (ASMEFDHead D 0).volume_up_to h' 500) ∧
    (∀ D : ℝ, 0 < D → ∀ h h' : ℝ, (Elliptical2to1Head D 0).h1 ≤ h → h ≤ h' →
      (Elliptical2to1Head D 0).volume_up_to h 500 ≤
        (Elliptical2to1Head D 0).volume_up_to h' 500) ∧
    (∀ D t : ℝ, 0 < D → 0 ≤ t → t < D / 2 →
      (ASMEFDHead D t).volume_up_to (ASMEFDHead D t).h1 500 = 0 ∧
      (Elliptical2to1Head D t).volume_up_to (Elliptical2to1Head D t).h1 500 = 0 ∧
      (HemisphericalHead D t).volume_up_to (HemisphericalHead D t).h1 500 = 0) := by
  refine ⟨?_, ?_, ?_, ?_⟩
  · intro D t hD ht hlt h h' h0 hle
    have hR : 0 ≤ D / 2 - t := by linarith
    exact volume_up_to_mono_of_radius_mono _ (HemisphericalHead_radius_mono D t hR)
      (fun x => HemisphericalHead_radius_nonneg D t x hR) h h' h0 hle 500
  · intro D hD h h' h0 hle
    exact volume_up_to_mono_of_radius_mono _ (ASMEFDHead_radius_mono_zero D hD)
      (ASMEFDHead_radius_nonneg_zero D hD) h h' h0 hle 500
  · intro D hD h h' h0 hle
    exact volume_up_to_mono_of_radius_mono _ (Elliptical2to1Head_radius_mono_zero D hD)
      (Elliptical2to1Head_radius_nonneg_zero D hD) h h' h0 hle 500
  · intro D t hD ht hlt
    exact ⟨volume_up_to_h1 _ 500, volume_up_to_h1 _ 500, volume_up_to_h1 _ 500⟩

/-- Witness for the amended C5 at `D = 1`, `t = 0`, `h = 0`, `h' = 1`. -/
theorem volume_up_to_props_amended_w :
    (HemisphericalHead 1 0).volume_up_to 0 500 ≤
      (HemisphericalHead 1 0).volume_up_to 1 500 ∧
    (ASMEFDHead 1 0).volume_up_to 0 500 ≤ (ASMEFDHead 1 0).volume_up_to 1 500 ∧
    (Elliptical2to1Head 1 0).volume_up_to 0 500 ≤
      (Elliptical2to1Head 1 0).volume_up_to 1 500 ∧
    (ASMEFDHead 1 0).volume_up_to (ASMEFDHead 1 0).h1 500 = 0 :=
  ⟨volume_up_to_props_amended.1 1 0 (by norm_num) le_rfl (by norm_num) 0 1
      (le_of_eq rfl) (by norm_num),
   volume_up_to_props_amended.2.1 1 (by norm_num) 0 1 (le_of_eq rfl) (by norm_num),
   volume_up_to_props_amended.2.2.1 1 (by norm_num) 0 1 (le_of_eq rfl) (by norm_num),
   (volume_up_to_props_amended.2.2.2 1 0 (by norm_num) le_rfl (by norm_num)).1⟩

set_option maxHeartbeats 1600000 in
/-- C5, counterexample. The map `volume_up_to` (default 500 steps) is *not*
monotone for every valid head: for `ASMEFDHead` with diameter 1 m and
thickness 0.01 m (a valid pair), the volume at height `0.1165498` is
strictly *below* the volume at the smaller height `0.1165497`.  The thin-wall
internal profile drops discontinuously at the crown/knuckle transition
`h2 = 1 - 5·√69/47 ≈ 0.1163166`, and between these two heights quadrature
sample 499 crosses that transition. -/
theorem volume_up_to_monotone_cex :
    0 < (1 : ℝ) ∧ (0 : ℝ) ≤ 1 / 100 ∧ (1 / 100 : ℝ) < 1 / 2 ∧
    (ASMEFDHead 1 (1 / 100)).h1 ≤ (1165497 / 10 ^ 7 : ℝ) ∧
    (1165497 / 10 ^ 7 : ℝ) ≤ (1165498 / 10 ^ 7 : ℝ) ∧
    (ASMEFDHead 1 (1 / 100)).volume_up_to (1165498 / 10 ^ 7) 500 <
      (ASMEFDHead 1 (1 / 100)).volume_up_to (1165497 / 10 ^ 7) 500 := by
  refine ⟨by norm_num, by norm_num, by norm_num, ?_, by norm_num, ?_⟩
  · show (0 : ℝ) ≤ 1165497 / 10 ^ 7
    norm_num
  have hh1 : (ASMEFDHead 1 (1 / 100)).h1 = 0 := rfl
  rw [← sub_neg]
  simp only [Head.volume_up_to, Head.area_at_height, Nat.cast_ofNat]
  rw [hh1]
  rw [show ((1165498 / 10 ^ 7 : ℝ) - 0) / 500 = 1165498 / (5 * 10 ^ 9) from by norm_num,
    show ((1165497 / 10 ^ 7 : ℝ) - 0) / 500 = 1165497 / (5 * 10 ^ 9) from by norm_num]
  simp only [zero_add]
  rw [← Finset.sum_sub_distrib, show (500 : ℕ) = 499 + 1 from rfl, Finset.sum_range_succ]
  have hterm : ∀ i ∈ Finset.range 499,
      Real.pi * (ASMEFDHead 1 (1 / 100)).radius_at_height
          ((i : ℝ) * (1165498 / (5 * 10 ^ 9))) ^ 2 * (1165498 / (5 * 10 ^ 9)) -
        Real.pi * (ASMEFDHead 1 (1 / 100)).radius_at_height
          ((i : ℝ) * (1165497 / (5 * 10 ^ 9))) ^ 2 * (1165497 / (5 * 10 ^ 9)) ≤
      Real.pi * (25 / 10 ^ 11) := by
    intro i hi
    have hi499 : (i : ℝ) ≤ 498 := by
      have h1 := Finset.mem_range.1 hi
      exact_mod_cast Nat.lt_succ_iff.1 h1
    have hi0 : (0 : ℝ) ≤ (i : ℝ) := Nat.cast_nonneg i
    have hxb' : (i : ℝ) * (1165498 / (5 * 10 ^ 9)) ≤ 116316601 / 10 ^ 9 := by nlinarith
    have hxb : (i : ℝ) * (1165497 / (5 * 10 ^ 9)) ≤ 116316601 / 10 ^ 9 := by nlinarith
    rw [cexASME_crown_case ((i : ℝ) * (1165498 / (5 * 10 ^ 9))) hxb',
      cexASME_crown_case ((i : ℝ) * (1165497 / (5 * 10 ^ 9))) hxb, add_zero, add_zero,
      Real.sq_sqrt (le_max_right _ _), Real.sq_sqrt (le_max_right _ _)]
    set x : ℝ := (i : ℝ) * (1165497 / (5 * 10 ^ 9)) with hxdef
    set x' : ℝ := (i : ℝ) * (1165498 / (5 * 10 ^ 9)) with hx'def
    have hx0 : 0 ≤ x := by
      rw [hxdef]
      positivity
    have hxx' : x ≤ x' := by
      rw [hxdef, hx'def]
      have h1 : (1165497 / (5 * 10 ^ 9) : ℝ) ≤ 1165498 / (5 * 10 ^ 9) := by norm_num
      exact mul_le_mul_of_nonneg_left h1 hi0
    have hd : x' - x = (i : ℝ) * (1 / (5 * 10 ^ 9)) := by
      rw [hxdef, hx'def]
      ring
    have hdelta : x' - x ≤ 1 / 10 ^ 7 := by
      rw [hd]
      nlinarith
    have hprod : 0 ≤ (x' - x) * (2 * (1.00 * 1) - x - x') :=
      mul_nonneg (by linarith) (by linarith [hxb'])
    have hid : (x - 1.00 * 1) ^ 2 - (x' - 1.00 * 1) ^ 2 =
        (x' - x) * (2 * (1.00 * 1) - x - x') := by ring
    have hba : (1.00 * 1 - 1 / 100 : ℝ) ^ 2 - (x - 1.00 * 1) ^ 2 ≤
        (1.00 * 1 - 1 / 100) ^ 2 - (x' - 1.00 * 1) ^ 2 := by linarith
    have hgap : ((1.00 * 1 - 1 / 100 : ℝ) ^ 2 - (x' - 1.00 * 1) ^ 2) -
        ((1.00 * 1 - 1 / 100) ^ 2 - (x - 1.00 * 1) ^ 2) ≤ 2 / 10 ^ 7 := by
      have h1 : (x' - x) * (2 * (1.00 * 1) - x - x') ≤ (x' - x) * 2 := by
        apply mul_le_mul_of_nonneg_left (by linarith [hx0, hxx']) (by linarith)
      nlinarith [hdelta]
    have hmx' : max ((1.00 * 1 - 1 / 100 : ℝ) ^ 2 - (x' - 1.00 * 1) ^ 2) 0 ≤
        max ((1.00 * 1 - 1 / 100) ^ 2 - (x - 1.00 * 1) ^ 2) 0 + 2 / 10 ^ 7 := by
      have h1 := max_zero_le_add hba
      linarith
    have hMub : max ((1.00 * 1 - 1 / 100 : ℝ) ^ 2 - (x - 1.00 * 1) ^ 2) 0 ≤ 9801 / 10 ^ 4 :=
      max_le (by nlinarith [sq_nonneg (x - 1.00 * 1)]) (by norm_num)
    have hM0 : (0 : ℝ) ≤ max ((1.00 * 1 - 1 / 100 : ℝ) ^ 2 - (x - 1.00 * 1) ^ 2) 0 :=
      le_max_right _ _
    rw [show Real.pi * max ((1.00 * 1 - 1 / 100 : ℝ) ^ 2 - (x' - 1.00 * 1) ^ 2) 0 *
          (1165498 / (5 * 10 ^ 9)) -
        Real.pi * max ((1.00 * 1 - 1 / 100 : ℝ) ^ 2 - (x - 1.00 * 1) ^ 2) 0 *
          (1165497 / (5 * 10 ^ 9)) =
        Real.pi * (max ((1.00 * 1 - 1 / 100 : ℝ) ^ 2 - (x' - 1.00 * 1) ^ 2) 0 *
            (1165498 / (5 * 10 ^ 9)) -
          max ((1.00 * 1 - 1 / 100 : ℝ) ^ 2 - (x - 1.00 * 1) ^ 2) 0 *
            (1165497 / (5 * 10 ^ 9))) from by ring]
    exact mul_le_mul_of_nonneg_left (by linarith) Real.pi_pos.le
  have hlast :
      Real.pi * (ASMEFDHead 1 (1 / 100)).radius_at_height
          (((499 : ℕ) : ℝ) * (1165498 / (5 * 10 ^ 9))) ^ 2 * (1165498 / (5 * 10 ^ 9)) -
        Real.pi * (ASMEFDHead 1 (1 / 100)).radius_at_height
          (((499 : ℕ) : ℝ) * (1165497 / (5 * 10 ^ 9))) ^ 2 * (1165497 / (5 * 10 ^ 9)) ≤
      Real.pi * (-(13 / 10 ^ 7)) := by
    have hc1 : (11631670 / 10 ^ 8 : ℝ) ≤ ((499 : ℕ) : ℝ) * (1165498 / (5 * 10 ^ 9)) := by
      push_cast
      norm_num
    have hc2 : ((499 : ℕ) : ℝ) * (1165498 / (5 * 10 ^ 9)) ≤ 11631671 / 10 ^ 8 := by
      push_cast
      norm_num
    have hc3 : ((499 : ℕ) : ℝ) * (1165497 / (5 * 10 ^ 9)) ≤ 116316601 / 10 ^ 9 := by
      push_cast
      norm_num
    rw [cexASME_knuckle_case (((499 : ℕ) : ℝ) * (1165498 / (5 * 10 ^ 9))) hc1 hc2,
      cexASME_crown_case (((499 : ℕ) : ℝ) * (1165497 / (5 * 10 ^ 9))) hc3]
    have hval : ((0.06 * 1 - 1 / 100 : ℝ) ^ 2 -
        (((499 : ℕ) : ℝ) * (1165498 / (5 * 10 ^ 9)) -
          (1.00 * 1 -
            Real.sqrt ((1.00 * 1 - 0.06 * 1) ^ 2 - (1 / 2 - 0.06 * 1) ^ 2))) ^ 2) ≤ 0 := by
      rw [cexASME_root]
      have hu : (1 / 20 : ℝ) ≤
          (1.00 * 1 - Real.sqrt 69 / 10) - ((499 : ℕ) : ℝ) * (1165498 / (5 * 10 ^ 9)) := by
        push_cast
        linarith [sqrt69_hi]
      have hprod : 0 ≤
          (((1.00 * 1 - Real.sqrt 69 / 10) -
              ((499 : ℕ) : ℝ) * (1165498 / (5 * 10 ^ 9))) - 1 / 20) *
            (((1.00 * 1 - Real.sqrt 69 / 10) -
              ((499 : ℕ) : ℝ) * (1165498 / (5 * 10 ^ 9))) + 1 / 20) :=
        mul_nonneg (by linarith) (by linarith)
      have hid : ((((499 : ℕ) : ℝ) * (1165498 / (5 * 10 ^ 9)) -
            (1.00 * 1 - Real.sqrt 69 / 10)) ^ 2 - (1 / 20 : ℝ) ^ 2) =
          (((1.00 * 1 - Real.sqrt 69 / 10) -
              ((499 : ℕ) : ℝ) * (1165498 / (5 * 10 ^ 9))) - 1 / 20) *
            (((1.00 * 1 - Real.sqrt 69 / 10) -
              ((499 : ℕ) : ℝ) * (1165498 / (5 * 10 ^ 9))) + 1 / 20) := by ring
      have hsq : (1 / 20 : ℝ) ^ 2 ≤
          (((499 : ℕ) : ℝ) * (1165498 / (5 * 10 ^ 9)) -
            (1.00 * 1 - Real.sqrt 69 / 10)) ^ 2 := by linarith
      have hc : ((0.06 * 1 - 1 / 100 : ℝ)) ^ 2 = (1 / 20 : ℝ) ^ 2 := by norm_num
      linarith
    rw [max_eq_right hval, Real.sqrt_zero, zero_add, add_zero,
      Real.sq_sqrt (le_max_right _ _)]
    have hvpos : (1992 / 10 ^ 4 : ℝ) ≤
        (1.00 * 1 - 1 / 100) ^ 2 -
          (((499 : ℕ) : ℝ) * (1165497 / (5 * 10 ^ 9)) - 1.00 * 1) ^ 2 := by
      push_cast
      norm_num
    rw [max_eq_left (by linarith)]
    rw [show Real.pi * ((1 - 2 * (0.06 * 1)) / 2 : ℝ) ^ 2 * (1165498 / (5 * 10 ^ 9)) -
        Real.pi * ((1.00 * 1 - 1 / 100) ^ 2 -
          (((499 : ℕ) : ℝ) * (1165497 / (5 * 10 ^ 9)) - 1.00 * 1) ^ 2) *
          (1165497 / (5 * 10 ^ 9)) =
        Real.pi * (((1 - 2 * (0.06 * 1)) / 2 : ℝ) ^ 2 * (1165498 / (5 * 10 ^ 9)) -
          ((1.00 * 1 - 1 / 100) ^ 2 -
            (((499 : ℕ) : ℝ) * (1165497 / (5 * 10 ^ 9)) - 1.00 * 1) ^ 2) *
            (1165497 / (5 * 10 ^ 9))) from by ring]
    apply mul_le_mul_of_nonneg_left ?_ Real.pi_pos.le
    have hcoef : ((1 - 2 * (0.06 * 1)) / 2 : ℝ) ^ 2 = 121 / 625 := by norm_num
    rw [hcoef]
    linarith
  have hsum : ∑ i in Finset.range 499,
      (Real.pi * (ASMEFDHead 1 (1 / 100)).radius_at_height
          ((i : ℝ) * (1165498 / (5 * 10 ^ 9))) ^ 2 * (1165498 / (5 * 10 ^ 9)) -
        Real.pi * (ASMEFDHead 1 (1 / 100)).radius_at_height
          ((i : ℝ) * (1165497 / (5 * 10 ^ 9))) ^ 2 * (1165497 / (5 * 10 ^ 9))) ≤
      ∑ _i in Finset.range 499, Real.pi * (25 / 10 ^ 11) := Finset.sum_le_sum hterm
  rw [Finset.sum_const, Finset.card_range, nsmul_eq_mul] at hsum
  have hpi := Real.pi_pos
  linarith [hsum, hlast]

end PRD
